import Mathlib

/-!
Verification development for the orbkit multi-format quantum-chemistry file
reader (`orbkit/read.py`).  The Python source is shallowly embedded: every
parser becomes a Lean function over the list of input lines, Python run-time
exceptions become an explicit `Err` value in an `Except` result, and real
numbers are modelled as exact rationals (`ℚ`).  Floating-point rounding is not
modelled; all numeric claims under scrutiny are about exact factors and
exact comparisons, which the rational model represents faithfully.
-/

/- The Batteries rational-number operations are `@[irreducible]`, which
blocks the evaluation of concrete parses inside `decide`; restore the
default reducibility for this file so that witnesses and counterexamples
evaluate. -/
attribute [local semireducible] Rat.add Rat.mul Rat.sub Rat.inv Rat.ofScientific

/-- Decidable equality of `Except` results, for evaluating concrete runs. -/
instance instDecEqExcept {ε α : Type} [DecidableEq ε] [DecidableEq α] :
    DecidableEq (Except ε α)
  | .ok a, .ok b =>
    if h : a = b then isTrue (by rw [h])
    else isFalse (fun hh => h (by cases hh; rfl))
  | .ok _, .error _ => isFalse (fun hh => Except.noConfusion hh)
  | .error _, .ok _ => isFalse (fun hh => Except.noConfusion hh)
  | .error e, .error f =>
    if h : e = f then isTrue (by rw [h])
    else isFalse (fun hh => h (by cases hh; rfl))

namespace Orbkit

/-- The kinds of Python exception the source can raise.  `ioError` carries the
message of an explicitly raised `IOError`; the others model built-in run-time
exceptions (`IndexError`, `ValueError`, `KeyError` for a missing dict key,
`NameError` for reading a local name before assignment, `TypeError`,
`AttributeError`, `EOFError` from `raw_input` at end of stream). -/
inductive Err where
  | ioError (msg : String)
  | indexError
  | valueError
  | keyError
  | nameError
  | typeError
  | attributeError
  | eofError
  | zeroDivError
  deriving DecidableEq, Repr

/-- A heterogeneous geometry-table cell: the Python lists appended to
`qc.geo_info` mix strings and integers. -/
inductive GVal where
  | str (v : String)
  | int (v : Int)
  deriving DecidableEq, Repr

/-! ## Python string and list primitives -/

/-- Whitespace for `str.split()`; the input files use blanks and tabs only. -/
def isWs (c : Char) : Bool := c == ' ' || c == '\t'

/-- Helper for `pySplit`: accumulate the current token (reversed). -/
def splitWsAux : List Char → List Char → List (List Char)
  | [], [] => []
  | [], cur => [cur.reverse]
  | c :: cs, cur =>
    if isWs c then
      match cur with
      | [] => splitWsAux cs []
      | _ => cur.reverse :: splitWsAux cs []
    else splitWsAux cs (c :: cur)

/-- Python `line.split()`: split on runs of whitespace, dropping empties. -/
def pySplit (s : String) : List String :=
  (splitWsAux s.data []).map String.mk

/-- Does `n` occur at the head of `h`? -/
def headMatch : List Char → List Char → Bool
  | [], _ => true
  | _ :: _, [] => false
  | a :: as, b :: bs => a == b && headMatch as bs

/-- Does the needle occur anywhere in the haystack? -/
def subIn (n : List Char) : List Char → Bool
  | [] => n.isEmpty
  | c :: hs => headMatch n (c :: hs) || subIn n (c :: hs).tail

/-- Python `needle in hay` on strings. -/
def strIn (needle hay : String) : Bool := subIn needle.data hay.data

/-- Helper for `strReplace` with an explicit fuel argument so that the
definition is structural and evaluates inside the kernel. -/
def replaceFuel (n r : List Char) : Nat → List Char → List Char
  | 0, h => h
  | _ + 1, [] => []
  | fuel + 1, c :: hs =>
    if n ≠ [] ∧ headMatch n (c :: hs) then
      r ++ replaceFuel n r fuel ((c :: hs).drop n.length)
    else
      c :: replaceFuel n r fuel hs

/-- Python `hay.replace(needle, repl)` (replaces every occurrence). -/
def strReplace (hay needle repl : String) : String :=
  String.mk (replaceFuel needle.data repl.data hay.data.length hay.data)

/-- Split on a single separator character, keeping empty parts, as Python
`s.split(sep)` does for a one-character separator. -/
def splitOnChAux (sep : Char) : List Char → List Char → List (List Char)
  | [], cur => [cur.reverse]
  | c :: cs, cur =>
    if c == sep then cur.reverse :: splitOnChAux sep cs []
    else splitOnChAux sep cs (c :: cur)

/-- Python `s.split(sep)` for a one-character separator. -/
def splitOnCh (sep : Char) (s : String) : List String :=
  (splitOnChAux sep s.data []).map String.mk

/-- Python slicing `s[n:]` by character offset. -/
def pyDropChars (n : Nat) (s : String) : String := String.mk (s.data.drop n)

/-- Python slicing `s[:n]` by character offset. -/
def pyTakeChars (n : Nat) (s : String) : String := String.mk (s.data.take n)

/-- Python sequence indexing with support for negative (from-the-end)
indices; `none` models an `IndexError`. -/
def pyIdx (xs : List α) (i : Int) : Option α :=
  if 0 ≤ i then xs.get? i.toNat
  else if 0 ≤ i + xs.length then xs.get? (i + xs.length).toNat
  else none

/-- Indexing that raises: `xs[i]` with `IndexError` out of range. -/
def pyGetI (xs : List α) (i : Int) : Except Err α :=
  match pyIdx xs i with
  | some v => .ok v
  | none => .error .indexError

/-- `xs[i]` for a non-negative literal index. -/
def pyGetN (xs : List α) (i : Nat) : Except Err α :=
  match xs.get? i with
  | some v => .ok v
  | none => .error .indexError

/-- `xs[-1]`. -/
def pyLast (xs : List α) : Except Err α := pyGetI xs (-1)

/-- Element assignment `xs[i] = v` for a non-negative index, with
`IndexError` out of range (list and numpy assignment both raise). -/
def pySetN (xs : List α) (i : Nat) (v : α) : Except Err (List α) :=
  if i < xs.length then .ok (xs.set i v) else .error .indexError

/-- Element assignment `xs[i] = v` with negative-index support. -/
def pySetI (xs : List α) (i : Int) (v : α) : Except Err (List α) :=
  if 0 ≤ i then pySetN xs i.toNat v
  else if 0 ≤ i + xs.length then pySetN xs (i + xs.length).toNat v
  else .error .indexError

/-- Replace the last element (callers establish nonemptiness). -/
def setLast (xs : List α) (v : α) : List α := xs.set (xs.length - 1) v

/-- Reading a Python local that may not have been assigned yet:
`none` raises `NameError`. -/
def needName : Option α → Except Err α
  | some v => .ok v
  | none => .error .nameError

/-- Reading a dict key that may be absent: `none` raises `KeyError`. -/
def needKey : Option α → Except Err α
  | some v => .ok v
  | none => .error .keyError

/-! ## Python numeric parsing -/

/-- Numeric value of a digit list (digits only, by construction). -/
def digitsToNat (l : List Char) : Nat :=
  l.foldl (fun a c => a * 10 + (c.toNat - 48)) 0

/-- Split off the leading run of decimal digits. -/
def takeDigits : List Char → List Char × List Char
  | [] => ([], [])
  | c :: cs =>
    if c.isDigit then
      let p := takeDigits cs
      (c :: p.1, p.2)
    else ([], c :: cs)

/-- Strip leading and trailing whitespace (Python `int`/`float` accept it). -/
def pyStrip (s : String) : String :=
  String.mk (((s.data.dropWhile isWs).reverse.dropWhile isWs).reverse)

/-- Core of `int(s)`: optional sign then a nonempty digit run. -/
def pyIntCore : List Char → Option Int
  | '-' :: rest =>
    match takeDigits rest with
    | (ds, []) => if ds.isEmpty then none else some (-(digitsToNat ds : Int))
    | _ => none
  | '+' :: rest =>
    match takeDigits rest with
    | (ds, []) => if ds.isEmpty then none else some (digitsToNat ds : Int)
    | _ => none
  | rest =>
    match takeDigits rest with
    | (ds, []) => if ds.isEmpty then none else some (digitsToNat ds : Int)
    | _ => none

/-- Python `int(s)`; `none` models the `ValueError` on a malformed literal. -/
def pyInt? (s : String) : Option Int := pyIntCore (pyStrip s).data

/-- `int(s)` raising `ValueError`. -/
def reqInt (s : String) : Except Err Int :=
  match pyInt? s with
  | some v => .ok v
  | none => .error .valueError

/-- Mantissa part of a float literal: digits, optionally a point and more
digits.  Returns the value as a rational and the rest of the input, or
`none` when no digit at all is present. -/
def floatMantissa (cs : List Char) : Option (ℚ × List Char) :=
  let ip := takeDigits cs
  match ip.2 with
  | '.' :: r =>
    let fp := takeDigits r
    if ip.1.isEmpty ∧ fp.1.isEmpty then none
    else
      some ((digitsToNat ip.1 : ℚ) + (digitsToNat fp.1 : ℚ) / ((10 : ℚ) ^ fp.1.length), fp.2)
  | _ =>
    if ip.1.isEmpty then none
    else some ((digitsToNat ip.1 : ℚ), ip.2)

/-- Exponent suffix of a float literal (`e`/`E`, optional sign, digits);
`some 0` when absent, `none` when malformed. -/
def floatExponent : List Char → Option Int
  | [] => some 0
  | 'e' :: r => floatExponentDigits r
  | 'E' :: r => floatExponentDigits r
  | _ => none
where
  /-- Signed digit run that must consume the whole rest. -/
  floatExponentDigits : List Char → Option Int
  | '-' :: r =>
    match takeDigits r with
    | (ds, []) => if ds.isEmpty then none else some (-(digitsToNat ds : Int))
    | _ => none
  | '+' :: r =>
    match takeDigits r with
    | (ds, []) => if ds.isEmpty then none else some (digitsToNat ds : Int)
    | _ => none
  | r =>
    match takeDigits r with
    | (ds, []) => if ds.isEmpty then none else some (digitsToNat ds : Int)
    | _ => none

/-- Python `float(s)` on the decimal and exponent notations occurring in
these file formats (Fortran `D` exponents are rejected, exactly as
`float` rejects them; the source converts `D` to `e` first where needed).
The special words `inf`/`nan` are not modelled: they do not occur in the
formats and no claim depends on them. -/
def pyFloat? (s : String) : Option ℚ :=
  let cs := (pyStrip s).data
  let signAndRest : ℚ × List Char :=
    match cs with
    | '-' :: r => (-1, r)
    | '+' :: r => (1, r)
    | r => (1, r)
  match floatMantissa signAndRest.2 with
  | none => none
  | some (m, rest) =>
    match floatExponent rest with
    | none => none
    | some e => some (signAndRest.1 * m * (10 : ℚ) ^ e)

/-- `float(s)` raising `ValueError`. -/
def reqFloat (s : String) : Except Err ℚ :=
  match pyFloat? s with
  | some v => .ok v
  | none => .error .valueError

/-! ## Quantities shared by the parsers -/

/-- The Ångström → bohr conversion factor `1/0.52917720859` used by all the
parsers, as an exact rational. -/
def aaToAuConv : ℚ := 1 / (0.52917720859 : ℚ)

/-- The occupied-orbital filter threshold `0.0000001`. -/
def occEps : ℚ := 1 / 10000000

/-- Modelled from the spec: the `lquant` table of the repository's
`orbkit.core` module (not among the given sources) mapping a shell letter to
its angular-momentum quantum number (spec §2 and Glossary). -/
def lquant? (t : String) : Option Nat :=
  if t = "s" then some 0
  else if t = "p" then some 1
  else if t = "d" then some 2
  else if t = "f" then some 3
  else if t = "g" then some 4
  else none

/-- Modelled from the spec: `l_deg` of the missing `orbkit.core` module — the
number of (Cartesian) basis functions a shell of angular momentum `l`
contributes (spec Glossary: degeneracy determined by the angular-momentum
quantum number; Cartesian sets are the ones the log parser insists on). -/
def l_deg (l : Nat) : Nat := (l + 1) * (l + 2) / 2

/-- Modelled from the spec: the `orbit` table of the missing `orbkit.core`
module, giving the shell letter for a numeric shell type of the checkpoint
format. -/
def orbit : List String := ["s", "p", "d", "f", "g"]

/-! ## The unified record -/

/-- One atomic-orbital shell.  The Python parsers build these as dicts whose
keys appear incrementally (the checkpoint parser starts from empty dicts), so
every field is optional; reading an absent field raises `KeyError`.
`coeffs` holds the rows of the `(pnum, 2)` exponent/contraction table. -/
structure AOShell where
  atom : Option Int := none
  type : Option String := none
  pnum : Option Int := none
  coeffs : Option (List (List ℚ)) := none
  deriving DecidableEq, Repr

/-- One molecular orbital, as the dicts of `mo_spec`.  `coeffs` is always
present from creation; the other keys appear when the file supplies them. -/
structure MO where
  coeffs : List ℚ := []
  energy : Option ℚ := none
  occ_num : Option ℚ := none
  sym : Option String := none
  deriving DecidableEq, Repr

/-- Transition-dipole state data kept by the gamess parser. -/
structure TdmData where
  multiplicity : List ℚ
  energy : List ℚ
  dipole : List (List ℚ)
  deriving DecidableEq, Repr

/-- Modelled from the spec: the `QCinfo` record of the repository's missing
`qcinfo` module.  Per spec §3 it owns geometry, basis, orbital and
transition-dipole sub-collections, starts empty at each parse call, and its
total energy is undefined until a format-specific keyword sets it. -/
structure QCinfo where
  geo_spec : List (List ℚ) := []
  geo_info : List (List GVal) := []
  ao_spec : List AOShell := []
  mo_spec : List MO := []
  etot : Option ℚ := none
  tdm_states : Option TdmData := none
  tdm_transitions : Option (List (List (List ℚ))) := none
  deriving DecidableEq, Repr

/-- Degeneracy contributed by one shell (0 when the shell has no recognised
type; all shells of interest carry one). -/
def shellDeg (sh : AOShell) : Nat :=
  match sh.type with
  | some t => (lquant? t).elim 0 l_deg
  | none => 0

/-- `basisCount` of a record: the sum over its AO shells of each shell
type's degeneracy (spec §3). -/
def basisCountOf (qc : QCinfo) : Nat := (qc.ao_spec.map shellDeg).sum

/-- The shared occupied-orbital filter: keep orbitals with occupation number
above `0.0000001`; a missing `occ_num` key raises `KeyError`. -/
def occFilter : List MO → Except Err (List MO)
  | [] => .ok []
  | m :: ms => do
    let o ← needKey m.occ_num
    let rest ← occFilter ms
    if o > occEps then .ok (m :: rest) else .ok rest

/-! ## The molden parser (`read_molden`) -/

/-- The molden line-machine mode: `off` covers both the Python values
`False` (set at `[Molden Format]`) and `None` (set when an unknown bracketed
section ends `mo_info`), which the loop treats identically. -/
inductive MSec where
  | off
  | geo
  | ao
  | mo
  deriving DecidableEq, Repr

/-- The loop-carried locals of `read_molden`.  An `Option` field is a local
that may not have been assigned yet; reading it then raises `NameError`.
`basis_count` is initialised once before the loop and — unlike `qc` and
`sec_flag` — is not reset when another `[Molden Format]` line starts a new
record.  `diags` collects the messages handed to the `display` sink. -/
structure MoldenSt where
  qc : Option QCinfo := none
  sec_flag : Option MSec := none
  aa_to_au : Option ℚ := none
  bNew : Option Bool := none
  at_num : Option Int := none
  ao_num : Option Nat := none
  basis_count : Nat := 0
  diags : List String := []
  deriving DecidableEq, Repr

/-- Assignment of a whitespace-split coefficient pair into a row of a
`(pnum, 2)` array, with numpy broadcasting: one value fills both columns,
two values land as given, any other count raises `ValueError`. -/
def row2 (vals : List ℚ) : Except Err (List ℚ) :=
  match vals with
  | [v] => .ok [v, v]
  | [a, b] => .ok [a, b]
  | _ => .error .valueError

/-- Geometry-section body of the molden loop: append the first three tokens
to `geo_info` and the unit-converted remaining tokens to `geo_spec`. -/
def moldenGeoLine (s : MoldenSt) (thisline : List String) : Except Err MoldenSt := do
  let qc ← needName s.qc
  let info := (thisline.take 3).map GVal.str
  let aa ← needName s.aa_to_au
  let vals ← (thisline.drop 3).mapM reqFloat
  let coords := vals.map (fun v => v * aa)
  .ok { s with qc := some { qc with
          geo_info := qc.geo_info ++ [info],
          geo_spec := qc.geo_spec ++ [coords] } }

/-- AO-section body of the molden loop: blank-line shell separation, the
atom-number line, the 3-token shell-opening line (which adds the shell's
degeneracy to `basis_count`), and exponent/coefficient rows with Fortran
`D` exponents rewritten to `e` before parsing. -/
def moldenAOLine (s : MoldenSt) (thisline : List String) (line : String) :
    Except Err MoldenSt := do
  if thisline.isEmpty then
    .ok { s with bNew := some true }
  else
    let b ← needName s.bNew
    if b then do
      let t0 ← pyGetN thisline 0
      let n ← reqInt t0
      .ok { s with bNew := some false, at_num := some (n - 1), ao_num := some 0 }
    else if thisline.length = 3 then do
      let qc ← needName s.qc
      let t0 ← pyGetN thisline 0
      let t1 ← pyGetN thisline 1
      let pnum ← reqInt t1
      let l ← needKey (lquant? t0)
      let atn ← needName s.at_num
      let rows ← if pnum < 0 then .error Err.valueError
                 else .ok (List.replicate pnum.toNat [(0 : ℚ), 0])
      .ok { s with ao_num := some 0,
                   basis_count := s.basis_count + l_deg l,
                   qc := some { qc with ao_spec := qc.ao_spec ++
                     [{ atom := some atn, type := some t0, pnum := some pnum,
                        coeffs := some rows }] } }
    else do
      let qc ← needName s.qc
      let vals ← (pySplit (strReplace line "D" "e")).mapM reqFloat
      let sh ← pyLast qc.ao_spec
      let rows ← needKey sh.coeffs
      let an ← needName s.ao_num
      let row ← row2 vals
      let rows ← pySetN rows an row
      let sh : AOShell := { sh with coeffs := some rows }
      .ok { s with ao_num := some (an + 1),
                   qc := some { qc with ao_spec := setLast qc.ao_spec sh } }

/-- Normalisation applied to a `Sym=` value lacking a decimal point: locate
the first digit run with `re.search`, raising `AttributeError` when there is
none, then either append `.1` or insert a point after every occurrence of
the run. -/
def firstDigitRun : List Char → Option (List Char)
  | [] => none
  | c :: cs => if c.isDigit then some (takeDigits (c :: cs)).1 else firstDigitRun cs

/-- The `key=value` metadata branch of the molden MO section.  If `bNew` is
set, a fresh orbital with `basis_count` zero coefficients and a synthetic
symmetry label is created first; then the blanked line is split at `=` and
recognised keys update the newest orbital. -/
def moldenMOInfo (s : MoldenSt) (line : String) : Except Err MoldenSt := do
  let qc ← needName s.qc
  let b ← needName s.bNew
  let qc :=
    if b then
      { qc with mo_spec := qc.mo_spec ++
        [{ coeffs := List.replicate s.basis_count (0 : ℚ),
           sym := some (toString (qc.mo_spec.length + 1) ++ ".1") }] }
    else qc
  let s := { s with qc := some qc, bNew := some false }
  let info := splitOnCh '=' (strReplace (strReplace line "\n" "") " " "")
  let key ← pyGetN info 0
  if key = "Sym" ∨ key = "Ene" ∨ key = "Occup" then do
    let v1 ← pyGetN info 1
    if key = "Sym" then do
      let v1 ←
        if strIn "." v1 then .ok v1
        else
          match firstDigitRun v1.data with
          | none => .error Err.attributeError
          | some run =>
            let a := String.mk run
            if a = v1 then .ok (a ++ ".1")
            else .ok (strReplace v1 a (a ++ "."))
      let m ← pyLast qc.mo_spec
      .ok { s with qc := some { qc with mo_spec := setLast qc.mo_spec ({ m with sym := some v1 }) } }
    else do
      let v ← reqFloat v1
      let m ← pyLast qc.mo_spec
      let m := if key = "Ene" then { m with energy := some v } else { m with occ_num := some v }
      .ok { s with qc := some { qc with mo_spec := setLast qc.mo_spec m } }
  else
    .ok s

/-- The coefficient branch of the molden MO section: `index value` pairs.
`bNew` is set before the assignment is attempted.  A value token that fails
`float` is recovered by leaving that coefficient untouched (the array was
created as zeros) and emitting a diagnostic naming the orbital; the
diagnostic itself reads the newest orbital's `sym` key. -/
def moldenMOCoeff (s : MoldenSt) (thisline : List String) : Except Err MoldenSt := do
  let qc ← needName s.qc
  let t0 ← pyGetN thisline 0
  let n ← reqInt t0
  let idx : Int := n - 1
  let t1 ← pyGetN thisline 1
  let s := { s with bNew := some true }
  match pyFloat? t1 with
  | none => do
    let m ← pyLast qc.mo_spec
    let sym ← needKey m.sym
    .ok { s with diags := s.diags ++
      ["Error in coefficient " ++ toString idx ++ " of MO " ++ sym ++ "!" ++
       "\nSetting this coefficient to zero..."] }
  | some v => do
    let m ← pyLast qc.mo_spec
    let coeffs ← pySetI m.coeffs idx v
    .ok { s with qc := some { qc with mo_spec := setLast qc.mo_spec ({ m with coeffs := coeffs }) } }

/-- One iteration of the `read_molden` line loop. -/
def moldenStep (s : MoldenSt) (line : String) : Except Err MoldenSt := do
  let thisline := pySplit line
  if strIn "[Molden Format]" line then
    .ok { s with qc := some {}, sec_flag := some MSec.off }
  else if strIn "_ENERGY=" line then do
    let t1 ← pyGetN thisline 1
    let v ← reqFloat t1
    let qc ← needName s.qc
    .ok { s with qc := some { qc with etot := some v } }
  else if strIn "[Atoms]" line then
    .ok { s with sec_flag := some MSec.geo,
                 aa_to_au := some (if strIn "Angs" line then aaToAuConv else 1) }
  else if strIn "[GTO]" line then
    .ok { s with sec_flag := some MSec.ao, bNew := some true }
  else if strIn "[MO]" line then
    .ok { s with sec_flag := some MSec.mo, bNew := some true }
  else if strIn "[STO]" line then
    .error (Err.ioError "Not a valid input file")
  else do
    let sec ← needName s.sec_flag
    match sec with
    | MSec.off => .ok s
    | MSec.geo => moldenGeoLine s thisline
    | MSec.ao => moldenAOLine s thisline line
    | MSec.mo =>
      if strIn "=" line then moldenMOInfo s line
      else if strIn "[" line then
        -- Python tests `('[' or ']') in line`, which evaluates to `'[' in line`.
        .ok { s with sec_flag := some MSec.off }
      else moldenMOCoeff s thisline

/-- The full line loop of `read_molden`. -/
def moldenScan (flines : List String) : Except Err MoldenSt :=
  flines.foldlM moldenStep {}

/-- `read_molden`: validity check for the exact `[Molden Format]` line, the
line loop, and the occupied-orbital filter unless `all_mo` is set.  Lines
are represented without their trailing newline. -/
def read_molden (flines : List String) (all_mo : Bool) : Except Err QCinfo := do
  if ¬ flines.contains "[Molden Format]" then
    .error (Err.ioError "Not a valid input file")
  else do
    let st ← moldenScan flines
    let qc ← needName st.qc
    if all_mo then .ok qc
    else do
      let mos ← occFilter qc.mo_spec
      .ok { qc with mo_spec := mos }

/-! ## The gamess parser (`read_gamess`) -/

/-- Lowercasing, for `str.lower()`. -/
def strLower (s : String) : String := String.mk (s.data.map Char.toLower)

/-- Helper for `splitOnStr` with fuel for structural recursion. -/
def splitOnStrFuel (sep : List Char) : Nat → List Char → List Char → List (List Char)
  | 0, h, cur => [cur.reverse ++ h]
  | _ + 1, [], cur => [cur.reverse]
  | fuel + 1, c :: hs, cur =>
    if sep ≠ [] ∧ headMatch sep (c :: hs) then
      cur.reverse :: splitOnStrFuel sep fuel ((c :: hs).drop sep.length) []
    else splitOnStrFuel sep fuel hs (c :: cur)

/-- Python `s.split(sep)` for a nonempty multi-character separator. -/
def splitOnStr (s sep : String) : List String :=
  (splitOnStrFuel sep.data s.data.length s.data []).map String.mk

/-- A Python local that can be undefined, `None`, or a value. -/
inductive PyVar (α : Type) where
  | undef
  | pynone
  | val (v : α)
  deriving DecidableEq, Repr

/-- One shell as collected by the gamess basis section.  `atom_type` is
`none` when it holds the `[]` placeholder the section header resets it to
(that value is an unhashable dict key, so using it raises `TypeError`).
`type` is the single shell letter, combined `l` shells having been split
into `s` and `p` siblings. -/
structure GShell where
  atom_type : Option String
  type : String
  pnum : Int
  coeffs : List (List ℚ)
  deriving DecidableEq, Repr

/-- The gamess line-machine mode (`False` and `None` merged into `off`). -/
inductive GSec where
  | off
  | geo
  | ao
  | mo
  | tdm
  deriving DecidableEq, Repr

/-- The transition-dipole sub-mode (`None`, `state_info`,
`transition_info`). -/
inductive TFlag where
  | noneF
  | state
  | trans
  deriving DecidableEq, Repr

/-- The loop-carried locals of `read_gamess`.  `element_list` and
`element_count` of the source are initialised but never read, so they are
omitted.  `Option` fields model locals that may still be unassigned. -/
structure GamessSt where
  qc : QCinfo := {}
  occ : List Int := []
  AO : List (List GShell) := []
  sec_flag : GSec := GSec.off
  geo_skip : Nat := 0
  ao_skip : Nat := 0
  basis_count : Nat := 0
  blast : Bool := false
  atom_count : Option Int := none
  aa_to_au : Option ℚ := none
  at_type : Option String := none
  new_ao : Option Bool := none
  ao_type : Option String := none
  mo_skip : Option Nat := none
  init_mo : Option Bool := none
  mo_new : Option Bool := none
  ene : Option Bool := none
  init_len : Option Nat := none
  len_mo : Option Nat := none
  tdm_flag : Option TFlag := none
  tdm_nstates : Option Int := none
  tdm_state : Option Int := none
  tdm_trans_states : Option (List Int) := none
  tdm_state_dipole : PyVar (List (List ℚ)) := PyVar.undef
  tdm_state_multiplicity : Option (List ℚ) := none
  tdm_state_energy : Option (List ℚ) := none
  tdm_tdm : Option (List (List (List ℚ))) := none
  gs_multi : Option Int := none
  deriving DecidableEq, Repr

/-- Geometry-section body: a skip counter for the banner row, termination at
the first truly empty line, and otherwise label/serial/charge plus
unit-converted coordinates. -/
def gamessGeoLine (s : GamessSt) (thisline : List String) (line : String) :
    Except Err GamessSt := do
  if s.geo_skip = 0 then
    if line = "" then
      .ok { s with sec_flag := GSec.off }
    else do
      let t0 ← pyGetN thisline 0
      let t1 ← pyGetN thisline 1
      let ac ← needName s.atom_count
      let aa ← needName s.aa_to_au
      let vals ← (thisline.drop 2).mapM reqFloat
      let qc := s.qc
      .ok { s with atom_count := some (ac + 1),
                   qc := { qc with
                     geo_info := qc.geo_info ++ [[GVal.str t0, GVal.int ac, GVal.str t1]],
                     geo_spec := qc.geo_spec ++ [vals.map (fun v => v * aa)] } }
  else
    .ok { s with geo_skip := s.geo_skip - 1 }

/-- Basis-section body: six banner lines skipped, a one-token line names the
atom type and opens a per-atom shell list, one blank line arms a new shell,
a shell-opening row splits its (possibly combined) type letters into sibling
shells sharing the exponent column, and continuation rows append one
primitive to each sibling. -/
def gamessAOLine (s : GamessSt) (thisline : List String) (line : String) :
    Except Err GamessSt := do
  if s.ao_skip = 0 then
    if strIn " TOTAL NUMBER OF BASIS SET SHELLS" line then
      .ok { s with sec_flag := GSec.off }
    else if thisline.length = 1 then do
      let t0 ← pyGetN thisline 0
      .ok { s with at_type := some t0, AO := s.AO ++ [[]], new_ao := some false }
    else if thisline.length = 0 then do
      let na ← needName s.new_ao
      if na = false then
        .ok { s with new_ao := some true }
      else do
        -- falls through to the data branch with an empty token list,
        -- where `thisline[1]` raises IndexError
        let _ ← (thisline.drop 3).mapM reqFloat
        let _ ← pyGetN thisline 1
        .error .indexError
    else do
      let coeffs ← (thisline.drop 3).mapM reqFloat
      let na ← needName s.new_ao
      if na then do
        let t1 ← pyGetN thisline 1
        let aot := strReplace (strLower t1) "l" "sp"
        let atomShells ← pyLast s.AO
        let c0 ← pyGetN coeffs 0
        let newShells ← (List.range aot.data.length).mapM (fun i => do
          let ci ← pyGetN coeffs (1 + i)
          let tc := String.mk [aot.data.get! i]
          .ok { atom_type := s.at_type, type := tc, pnum := 1,
                coeffs := [[c0, ci]] : GShell })
        let ao ← pySetI s.AO (-1) (atomShells ++ newShells)
        .ok { s with ao_type := some aot, AO := ao, new_ao := some false }
      else do
        let aot ← needName s.ao_type
        let n := aot.data.length
        let c0 ← pyGetN coeffs 0
        let atomShells ← pyLast s.AO
        let atomShells ← (List.range n).foldlM (fun acc i => do
          let ci ← pyGetN coeffs (1 + i)
          let sh ← pyGetI acc ((i : Int) - n)
          let sh := { sh with coeffs := sh.coeffs ++ [[c0, ci]], pnum := sh.pnum + 1 }
          pySetI acc ((i : Int) - n) sh) atomShells
        let ao ← pySetI s.AO (-1) atomShells
        .ok { s with AO := ao }
  else
    .ok { s with ao_skip := s.ao_skip - 1 }

/-- Update the `j`-th-from-the-block-end orbital (`mo_spec[-(init_len - j)]`)
with `f`. -/
def moBlockSet (mos : List MO) (init_len j : Nat) (f : MO → MO) :
    Except Err (List MO) := do
  let m ← pyGetI mos ((j : Int) - init_len)
  pySetI mos ((j : Int) - init_len) (f m)

/-- Eigenvector-section body: a blank line (twice in a row ends the section)
arms a new column block; the first data line of a block creates one orbital
per column; the next two lines carry energies and symmetry labels; further
lines append one coefficient per column, read from character offset 16. -/
def gamessMOLine (s : GamessSt) (thisline : List String) (line : String) :
    Except Err GamessSt := do
  let skip ← needName s.mo_skip
  if skip = 0 then
    if strIn "...... END OF RHF CALCULATION ......" line then
      .ok { s with sec_flag := GSec.off }
    else if thisline.isEmpty then
      if s.blast then
        .ok { s with sec_flag := GSec.off, blast := true, init_mo := some true,
                     mo_new := some false, ene := some false }
      else
        .ok { s with blast := true, init_mo := some true,
                     mo_new := some false, ene := some false }
    else do
      let im ← needName s.init_mo
      let mn ← needName s.mo_new
      if im ∧ ¬ mn then
        let fresh : List MO := thisline.map (fun _ =>
          { coeffs := [], energy := some 0, occ_num := some 0, sym := some "" })
        .ok { s with init_len := some thisline.length,
                     qc := { s.qc with mo_spec := s.qc.mo_spec ++ fresh },
                     init_mo := some false, mo_new := some true, blast := false }
      else do
        let il ← needName s.init_len
        let e ← needName s.ene
        if thisline.length = il ∧ e = false then do
          let mos ← (List.range il).foldlM (fun acc j => do
            let t ← pyGetN thisline j
            let v ← reqFloat t
            moBlockSet acc il j (fun m => { m with energy := some v })) s.qc.mo_spec
          .ok { s with qc := { s.qc with mo_spec := mos }, ene := some true }
        else if thisline.length = il ∧ e = true then do
          let lm ← needName s.len_mo
          let mos ← (List.range il).foldlM (fun acc j => do
            let t ← pyGetN thisline j
            moBlockSet acc il j (fun m =>
              { m with sym := some (toString (lm + j) ++ "." ++ t) })) s.qc.mo_spec
          .ok { s with qc := { s.qc with mo_spec := mos }, len_mo := some (lm + il) }
        else if ¬ im ∧ mn then do
          let toks := pySplit (pyDropChars 16 line)
          let mos ← (List.range il).foldlM (fun acc j => do
            let t ← pyGetN toks j
            let v ← reqFloat t
            moBlockSet acc il j (fun m => { m with coeffs := m.coeffs ++ [v] })) s.qc.mo_spec
          .ok { s with qc := { s.qc with mo_spec := mos } }
        else
          .ok s
  else
    .ok { s with mo_skip := some (skip - 1) }

/-- Store a three-component dipole row read from tokens `base`, `base+1`,
`base+2` of the line into row `i` (Python/numpy indexing) of `arr`, scaled
by `factor`. -/
def dipoleRow (thisline : List String) (base : Nat) (factor : ℚ) :
    Except Err (List ℚ) := do
  let x ← pyGetN thisline base >>= reqFloat
  let y ← pyGetN thisline (base + 1) >>= reqFloat
  let z ← pyGetN thisline (base + 2) >>= reqFloat
  .ok [x * factor, y * factor, z * factor]

/-- Transition-dipole section body: lazily initialise the state arrays, then
a chain of independent `if` tests exactly as in the source; the conditions
written `'STATE DIPOLE' and 'E*BOHR' in line` and
`'TRANSITION DIPOLE' and 'E*BOHR' in line` in Python evaluate to just
`'E*BOHR' in line`, which is what is modelled. -/
def gamessTdmLine (s : GamessSt) (thisline : List String) (line : String) :
    Except Err GamessSt := do
  -- if tdm_state_dipole == None: initialise all four arrays
  let s ←
    match s.tdm_state_dipole with
    | PyVar.undef => .error .nameError
    | PyVar.val _ => .ok s
    | PyVar.pynone => do
      let n ← needName s.tdm_nstates
      if n + 1 < 0 ∨ n < 0 then .error .valueError
      else
        .ok { s with
          tdm_state_dipole := PyVar.val (List.replicate (n + 1).toNat [(0 : ℚ), 0, 0]),
          tdm_state_multiplicity := some (List.replicate (n + 1).toNat (0 : ℚ)),
          tdm_state_energy := some (List.replicate (n + 1).toNat (0 : ℚ)),
          tdm_tdm := some (List.replicate n.toNat
            (List.replicate (n + 1).toNat [(0 : ℚ), 0, 0])) }
  let s ←
    if strIn "GROUND STATE (SCF) DIPOLE=" line then do
      let row ← dipoleRow thisline 4 (0.393430307 : ℚ)
      let dip ← match s.tdm_state_dipole with
        | PyVar.val a => .ok a
        | _ => .error .typeError
      let dip ← pySetN dip 0 row
      .ok { s with tdm_state_dipole := PyVar.val dip }
    else .ok s
  let s ←
    if strIn "EXPECTATION VALUE DIPOLE MOMENT FOR EXCITED STATE" line then do
      let t ← pyGetN (splitOnStr line "STATE") 1
      let v ← reqInt t
      .ok { s with tdm_state := some v, tdm_flag := some TFlag.state }
    else .ok s
  let s ←
    if strIn "TRANSITION FROM THE GROUND STATE TO EXCITED STATE" line then do
      let t ← pyGetN (splitOnStr line "EXCITED STATE") 1
      let v ← reqInt t
      .ok { s with tdm_trans_states := some [0, v], tdm_flag := some TFlag.trans }
    else .ok s
  let s ←
    if strIn "TRANSITION BETWEEN EXCITED STATES" line then do
      let t ← pyGetN (splitOnStr line "STATES") 1
      let a ← pyGetN (splitOnStr t "AND") 0 >>= reqInt
      let b ← pyGetN (splitOnStr t "AND") 1 >>= reqInt
      .ok { s with tdm_trans_states := some [a, b], tdm_flag := some TFlag.trans }
    else .ok s
  let s :=
    if strIn "CIS NATURAL ORBITAL OCCUPATION NUMBERS FOR EXCITED STATE" line then
      { s with sec_flag := GSec.off, tdm_flag := some TFlag.noneF }
    else s
  let fl ← needName s.tdm_flag
  match fl with
  | TFlag.state => do
    let s ←
      if strIn "STATE MULTIPLICITY" line then do
        let t ← pyGetN (splitOnCh '=' line) 1
        let v ← reqInt t
        let arr ← needName s.tdm_state_multiplicity
        let k ← needName s.tdm_state
        let arr ← pySetI arr k (v : ℚ)
        .ok { s with tdm_state_multiplicity := some arr }
      else .ok s
    let s ←
      if strIn "STATE ENERGY" line then do
        let t ← pyGetN (splitOnCh '=' line) 1
        let v ← reqFloat t
        let arr ← needName s.tdm_state_energy
        let k ← needName s.tdm_state
        let arr ← pySetI arr k v
        .ok { s with tdm_state_energy := some arr }
      else .ok s
    if strIn "E*BOHR" line then do
      let row ← dipoleRow thisline 3 1
      let dip ← match s.tdm_state_dipole with
        | PyVar.val a => .ok a
        | _ => .error .typeError
      let k ← needName s.tdm_state
      let dip ← pySetI dip k row
      .ok { s with tdm_state_dipole := PyVar.val dip }
    else .ok s
  | TFlag.trans =>
    if strIn "E*BOHR" line then do
      let row ← dipoleRow thisline 3 1
      let tt ← needName s.tdm_tdm
      let ts ← needName s.tdm_trans_states
      let a ← pyGetN ts 0
      let b ← pyGetN ts 1
      let rowa ← pyGetI tt a
      let rowa ← pySetI rowa b row
      let tt ← pySetI tt a rowa
      .ok { s with tdm_tdm := some tt }
    else .ok s
  | TFlag.noneF => .ok s

/-- One iteration of the `read_gamess` line loop. -/
def gamessStep (s : GamessSt) (line : String) : Except Err GamessSt := do
  let thisline := pySplit line
  if strIn " ATOM      ATOMIC                      COORDINATES" line then
    .ok { s with sec_flag := GSec.geo, geo_skip := 1, atom_count := some 1,
                 aa_to_au := some (if strIn "(BOHR)" line then 1 else aaToAuConv) }
  else if strIn "ATOMIC BASIS SET" line then
    .ok { s with sec_flag := GSec.ao, ao_skip := 6, at_type := none }
  else if strIn "          EIGENVECTORS" line then
    .ok { s with sec_flag := GSec.mo, mo_skip := some 1, init_mo := some false,
                 mo_new := some false, ene := some false, len_mo := some 0 }
  else if strIn "CIS TRANSITION DIPOLE MOMENTS AND" line then
    .ok { s with sec_flag := GSec.tdm, tdm_flag := some TFlag.noneF }
  else if strIn "NUMBER OF STATES REQUESTED" line then do
    let t ← pyGetN (splitOnCh '=' line) 1
    let v ← reqInt t
    .ok { s with tdm_nstates := some v, tdm_state_dipole := PyVar.pynone }
  else if strIn "SPIN MULTIPLICITY" line then do
    let t ← pyGetN thisline 3
    let v ← reqInt t
    .ok { s with gs_multi := some v }
  else if strIn "FINAL" line then do
    let t ← pyGetN thisline 4
    let v ← reqFloat t
    .ok { s with qc := { s.qc with etot := some v } }
  else if strIn " NUMBER OF OCCUPIED ORBITALS (ALPHA)          =" line then do
    let t ← pyLast thisline
    let v ← reqInt t
    .ok { s with occ := s.occ ++ [v] }
  else if strIn " NUMBER OF OCCUPIED ORBITALS (BETA )          =" line then do
    let t ← pyLast thisline
    let v ← reqInt t
    .ok { s with occ := s.occ ++ [v] }
  else if strIn "          ECP POTENTIALS" line then
    .ok { s with occ := [] }
  else if strIn " NUMBER OF OCCUPIED ORBITALS (ALPHA) KEPT IS    =" line then do
    let t ← pyLast thisline
    let v ← reqInt t
    .ok { s with occ := s.occ ++ [v] }
  else if strIn " NUMBER OF OCCUPIED ORBITALS (BETA ) KEPT IS    =" line then do
    let t ← pyLast thisline
    let v ← reqInt t
    .ok { s with occ := s.occ ++ [v] }
  else
    match s.sec_flag with
    | GSec.off => .ok s
    | GSec.geo => gamessGeoLine s thisline line
    | GSec.ao => gamessAOLine s thisline line
    | GSec.mo => gamessMOLine s thisline line
    | GSec.tdm => gamessTdmLine s thisline line

/-- The full line loop of `read_gamess`. -/
def gamessScan (flines : List String) : Except Err GamessSt :=
  flines.foldlM gamessStep {}

/-- Lookup in the insertion-ordered model of the `basis_set` dict. -/
def alistFind (k : String) : List (String × List GShell) → Option (List GShell)
  | [] => none
  | (k2, v) :: rest => if k2 = k then some v else alistFind k rest

/-- The per-atom comparison loop of the dedup step: compare each of the
atom's shells (by index) with the canonical list; a missing canonical index
raises `IndexError`, a coefficient mismatch raises the fatal
`IOError` on inconsistent bases. -/
def checkShellsFrom (canon : List GShell) : List GShell → Nat → Except Err Unit
  | [], _ => .ok ()
  | a :: as, j => do
    let c ← pyGetN canon j
    if a.coeffs ≠ c.coeffs then
      .error (Err.ioError "Different basis sets for the same atom.")
    else checkShellsFrom canon as (j + 1)

/-- The dedup loop over per-atom shell lists: the first atom of each type
becomes canonical; later atoms of the same type must agree shell-by-shell. -/
def buildBasisSetLoop : List (List GShell) → List (String × List GShell) →
    Except Err (List (String × List GShell))
  | [], acc => .ok acc
  | atom :: rest, acc => do
    let first ← pyGetN atom 0
    let key ← match first.atom_type with
      | some k => .ok k
      | none => .error .typeError
    match alistFind key acc with
    | none => buildBasisSetLoop rest (acc ++ [(key, atom)])
    | some canon => do
      let _ ← checkShellsFrom canon atom 0
      buildBasisSetLoop rest acc

/-- The `basis_set` dict built (or the error raised) from the collected
per-atom shell lists. -/
def buildBasisSet (ao : List (List GShell)) : Except Err (List (String × List GShell)) :=
  buildBasisSetLoop ao []

/-- Re-expansion of the deduplicated basis onto one geometry atom: its
element label is the dict key and its 1-based serial supplies the 0-based
`atom` index of the produced `ao_spec` entries. -/
def complementAtom (entry : List GVal) (bs : List (String × List GShell)) :
    Except Err (List AOShell) := do
  let g0 ← pyGetN entry 0
  let key ← match g0 with
    | GVal.str k => .ok k
    | GVal.int _ => .error .keyError
  let shells ← match alistFind key bs with
    | some v => .ok v
    | none => .error .keyError
  let g1 ← pyGetN entry 1
  let serial ← match g1 with
    | GVal.int v => .ok v
    | GVal.str _ => .error .typeError
  .ok (shells.map (fun sh =>
    { atom := some (serial - 1), type := some sh.type, pnum := some sh.pnum,
      coeffs := some sh.coeffs }))

/-- The three sequential `if` statements of the occupation-assignment loop
body, translated exactly: each tests the freshly decremented counters of the
previous one, so the added occupation for one orbital can be 2, 1, 0 — or 3,
when the first branch zeroes one counter and leaves the other positive.
Returns the occupation increment and the updated counters. -/
def gamessOccPair (o0 o1 : Int) : ℚ × Int × Int :=
  let p1 : ℚ × Int × Int :=
    if o0 ≠ 0 ∧ o1 ≠ 0 then (2, o0 - 1, o1 - 1) else (0, o0, o1)
  let p2 : ℚ × Int × Int :=
    if p1.2.1 = 0 ∧ p1.2.2 ≠ 0 then (p1.1 + 1, p1.2.1, p1.2.2 - 1) else p1
  if p2.2.2 = 0 ∧ p2.2.1 ≠ 0 then (p2.1 + 1, p2.2.1 - 1, p2.2.2) else p2

/-- The occupation-assignment loop over the parsed orbitals, in file order,
threading the two depleting counters. -/
def gamessOccLoop : List MO → Int → Int → Except Err (List MO)
  | [], _, _ => .ok []
  | m :: ms, o0, o1 => do
    let cur ← needKey m.occ_num
    let p := gamessOccPair o0 o1
    let rest ← gamessOccLoop ms p.2.1 p.2.2
    .ok ({ m with occ_num := some (cur + p.1) } :: rest)

/-- Everything `read_gamess` does after the line loop: basis dedup,
re-expansion per geometry atom, occupation assignment, and the save of the
transition-dipole results (which unconditionally touches the CIS arrays and
the ground-state multiplicity and total energy, so non-CIS files fail
here).  The `all_mo` argument of `read_gamess` is accepted but never used
by the source: no occupied-orbital filter is applied. -/
def gamessPost (s : GamessSt) : Except Err QCinfo := do
  let bs ← buildBasisSet s.AO
  let qc := s.qc
  let extra ← qc.geo_info.mapM (fun entry => complementAtom entry bs)
  let qc := { qc with ao_spec := qc.ao_spec ++ extra.flatten }
  let mos ←
    if qc.mo_spec.isEmpty then .ok qc.mo_spec
    else do
      let o0 ← pyGetN s.occ 0
      let o1 ← pyGetN s.occ 1
      gamessOccLoop qc.mo_spec o0 o1
  let qc := { qc with mo_spec := mos }
  let energyArr ← needName s.tdm_state_energy
  let etotv ← match qc.etot with
    | some v => .ok v
    | none => .error .attributeError
  let energyArr ← pySetN energyArr 0 etotv
  let multArr ← needName s.tdm_state_multiplicity
  let g ← needName s.gs_multi
  let multArr ← pySetN multArr 0 (g : ℚ)
  let dip ← match s.tdm_state_dipole with
    | PyVar.val a => .ok a
    | _ => .error .typeError
  let tt ← needName s.tdm_tdm
  .ok { qc with tdm_states := some { multiplicity := multArr, energy := energyArr,
                                     dipole := dip },
                tdm_transitions := some tt }

/-- `read_gamess`: the line loop followed by the post-processing.  The
`all_mo` flag is part of the signature but ignored by the body, exactly as
in the source. -/
def read_gamess (flines : List String) (all_mo : Bool) : Except Err QCinfo := do
  let _ := all_mo
  let st ← gamessScan flines
  gamessPost st

/-! ## The checkpoint parser (`read_gaussian_fchk`) -/

/-- The checkpoint reader's mode (`None` merged into `off`). -/
inductive FSec where
  | off
  | geo
  | gpos
  | aoi
  | aoc
  | moe
  | moc
  deriving DecidableEq, Repr

/-- The reused `index` local of `read_gaussian_fchk`: an integer in the
geometry and coefficient sections, one of the strings `type`, `pnum`,
`atom` in the shell-description section. -/
inductive FIdx where
  | num (n : Int)
  | stype
  | spnum
  | satom
  deriving DecidableEq, Repr

/-- The loop-carried locals of `read_gaussian_fchk`.  `count_mo` of the
source is initialised but never read and is omitted.  `count` and `xyz` are
first assigned by keyword lines, hence optional. -/
structure FchkSt where
  qc : QCinfo := {}
  sec_flag : FSec := FSec.off
  el_num : List Int := [0, 0]
  index : FIdx := FIdx.num 0
  at_num : Int := 0
  ao_num : Int := 0
  switch : Nat := 0
  count : Option Int := none
  mo_num : Option Int := none
  xyz : Option (List ℚ) := none
  basis_count : Nat := 0
  deriving DecidableEq, Repr

/-- Keyword handler shared by `Atomic numbers` and
`Integer atomic weights`: lazily allocate the geometry table. -/
def fchkGeoKw (s : FchkSt) (idx : Int) (at_num : Int) : FchkSt :=
  let gi :=
    if s.qc.geo_info.isEmpty then
      (List.range at_num.toNat).map (fun (ii : Nat) => [GVal.str "", GVal.int (ii : Int), GVal.str ""])
    else s.qc.geo_info
  { s with sec_flag := FSec.geo, index := FIdx.num idx, at_num := at_num,
           count := some 0, qc := { s.qc with geo_info := gi } }

/-- Keyword handler shared by `Shell types`, `Number of primitives per
shell` and `Shell to atom map`: lazily allocate the shell dicts. -/
def fchkAOKw (s : FchkSt) (idx : FIdx) (ao_num : Int) : FchkSt :=
  let ao :=
    if s.qc.ao_spec.isEmpty then (List.range ao_num.toNat).map (fun _ => ({} : AOShell))
    else s.qc.ao_spec
  { s with sec_flag := FSec.aoi, index := idx, ao_num := ao_num, count := some 0,
           qc := { s.qc with ao_spec := ao } }

/-- Keyword handler shared by `Primitive exponents` and `Contraction
coefficients`: fails with the ordering `IOError` when no shell types have
been read, and allocates each shell's `(pnum, 2)` coefficient table when the
first shell lacks one. -/
def fchkPrimKw (s : FchkSt) (ao_num : Int) (sw : Nat) : Except Err FchkSt := do
  if s.qc.ao_spec.isEmpty then
    .error (Err.ioError "Shell types need to be defined before the AO exponents!")
  else do
    let first ← pyGetN s.qc.ao_spec 0
    let ao ←
      if first.coeffs = none then
        s.qc.ao_spec.mapM (fun sh => do
          let pn ← needKey sh.pnum
          let rows ← if pn < 0 then .error Err.valueError
                     else .ok (List.replicate pn.toNat [(0 : ℚ), 0])
          .ok { sh with coeffs := some rows })
      else .ok s.qc.ao_spec
    .ok { s with sec_flag := FSec.aoc, ao_num := ao_num, count := some 0, switch := sw,
                 index := FIdx.num 0, qc := { s.qc with ao_spec := ao } }

/-- The `Orbital Energies` keyword handler: fixes every occupation number of
the created block immediately, before any energy or coefficient data.  With
equal alpha/beta electron counts the first `el_num[0]` orbitals of the block
get occupation 2 and the rest 0; with differing counts the first
`el_num[0]` (for an `Alpha` line) or `el_num[1]` (otherwise) orbitals get 1
and the rest 0. -/
def fchkOrbEnergiesKw (s : FchkSt) (line : String) (mo_num : Int) :
    Except Err FchkSt := do
  let e0 ← pyGetN s.el_num 0
  let e1 ← pyGetN s.el_num 1
  let i : Int := if e0 = e1 then e0 else (if strIn "Alpha" line then e0 else e1)
  let occv : ℚ := if e0 = e1 then 2 else 1
  let oldLen := s.qc.mo_spec.length
  let fresh : List MO := (List.range mo_num.toNat).map (fun (ii : Nat) =>
    { coeffs := List.replicate s.basis_count (0 : ℚ), energy := some 0,
      occ_num := some (if (ii : Int) < i then occv else 0),
      sym := some (toString (oldLen + ii + 1) ++ ".1") })
  .ok { s with sec_flag := FSec.moe, mo_num := some mo_num, index := FIdx.num 0,
               count := some (oldLen : Int),
               qc := { s.qc with mo_spec := s.qc.mo_spec ++ fresh } }

/-- Geometry-table body: each token lands as a string in column `index` of
row `count`; reaching `at_num` rows leaves the section (further tokens on
the same line would run the loop on, as in the source). -/
def fchkGeoInfoTok (s : FchkSt) (tok : String) : Except Err FchkSt := do
  let cnt ← needName s.count
  let row ← pyGetI s.qc.geo_info cnt
  let n ← match s.index with
    | FIdx.num n => .ok n
    | _ => .error .typeError
  let row ← pySetI row n (GVal.str tok)
  let gi ← pySetI s.qc.geo_info cnt row
  let s := { s with qc := { s.qc with geo_info := gi }, count := some (cnt + 1) }
  if cnt + 1 = s.at_num then .ok { s with sec_flag := FSec.off } else .ok s

/-- Coordinate body: collect tokens into triples. -/
def fchkGeoPosTok (s : FchkSt) (tok : String) : Except Err FchkSt := do
  let v ← reqFloat tok
  let xyz0 ← needName s.xyz
  let xyz := xyz0 ++ [v]
  if xyz.length = 3 then do
    let cnt ← needName s.count
    let s := { s with qc := { s.qc with geo_spec := s.qc.geo_spec ++ [xyz] },
                      xyz := some [], count := some (cnt + 1) }
    if cnt + 1 = s.at_num then .ok { s with sec_flag := FSec.off } else .ok s
  else .ok { s with xyz := some xyz }

/-- Shell-description body: each integer token updates field `index` of
shell `count`; a `type` token is translated through `orbit`/`lquant` and
adds its degeneracy to `basis_count`; an `atom` token is shifted to
0-based. -/
def fchkAOInfoTok (s : FchkSt) (tok : String) : Except Err FchkSt := do
  let n ← reqInt tok
  let cnt ← needName s.count
  let sh ← pyGetI s.qc.ao_spec cnt
  let p ← match s.index with
    | FIdx.stype => do
      let letter ← pyGetN orbit n.natAbs
      let l ← needKey (lquant? letter)
      .ok ({ sh with type := some letter },
           { s with basis_count := s.basis_count + l_deg l })
    | FIdx.spnum => .ok ({ sh with pnum := some n }, s)
    | FIdx.satom => .ok ({ sh with atom := some (n - 1) }, s)
    | FIdx.num _ => .error .typeError
  let ao ← pySetI p.2.qc.ao_spec cnt p.1
  let s := { p.2 with qc := { p.2.qc with ao_spec := ao }, count := some (cnt + 1) }
  if cnt + 1 = s.ao_num then .ok { s with sec_flag := FSec.off } else .ok s

/-- Primitive/contraction body: fill column `switch` of row `count` of shell
`index`, advancing to the next shell when its `pnum` rows are complete. -/
def fchkAOCoeffTok (s : FchkSt) (tok : String) : Except Err FchkSt := do
  let v ← reqFloat tok
  let idx ← match s.index with
    | FIdx.num n => .ok n
    | _ => .error .typeError
  let sh ← pyGetI s.qc.ao_spec idx
  let rows ← needKey sh.coeffs
  let cnt ← needName s.count
  let row ← pyGetI rows cnt
  let row ← pySetN row s.switch v
  let rows ← pySetI rows cnt row
  let sh := { sh with coeffs := some rows }
  let ao ← pySetI s.qc.ao_spec idx sh
  let s := { s with qc := { s.qc with ao_spec := ao }, ao_num := s.ao_num - 1 }
  let pn ← needKey sh.pnum
  if cnt + 1 = pn then
    .ok { s with index := FIdx.num (idx + 1), count := some 0 }
  else
    .ok { s with count := some (cnt + 1) }

/-- Orbital-energy body: energies land in `mo_spec[count]`; the termination
test compares `count` modulo `basis_count` but only when `index` is nonzero,
which never holds in this section (the keyword set it to 0), exactly as in
the source. -/
def fchkMOEnergyTok (s : FchkSt) (tok : String) : Except Err FchkSt := do
  let v ← reqFloat tok
  let cnt ← needName s.count
  let m ← pyGetI s.qc.mo_spec cnt
  let mos ← pySetI s.qc.mo_spec cnt { m with energy := some v }
  let s := { s with qc := { s.qc with mo_spec := mos }, count := some (cnt + 1) }
  match s.index with
  | FIdx.num 0 => .ok s
  | _ =>
    if s.basis_count = 0 then .error .zeroDivError
    else if (cnt + 1) % (s.basis_count : Int) = 0 then .ok { s with sec_flag := FSec.off }
    else .ok s

/-- MO-coefficient body: the left-to-right flattening of the coefficient
matrix; `count` counts within an orbital, `index` points at the orbital. -/
def fchkMOCoeffTok (s : FchkSt) (tok : String) : Except Err FchkSt := do
  let v ← reqFloat tok
  let idx ← match s.index with
    | FIdx.num n => .ok n
    | _ => .error .typeError
  let m ← pyGetI s.qc.mo_spec idx
  let cnt ← needName s.count
  let coeffs ← pySetI m.coeffs cnt v
  let mos ← pySetI s.qc.mo_spec idx { m with coeffs := coeffs }
  let s := { s with qc := { s.qc with mo_spec := mos } }
  let p : Int × Int :=
    if cnt + 1 = (s.basis_count : Int) then (0, idx + 1) else (cnt + 1, idx)
  let s := { s with count := some p.1, index := FIdx.num p.2 }
  if p.2 ≠ 0 then
    if s.basis_count = 0 then .error .zeroDivError
    else if p.2 % (s.basis_count : Int) = 0 then .ok { s with sec_flag := FSec.off }
    else .ok s
  else .ok s

/-- One iteration of the `read_gaussian_fchk` line loop. -/
def fchkStep (s : FchkSt) (line : String) : Except Err FchkSt := do
  let thisline := pySplit line
  if strIn "Number of alpha electrons" line then do
    let t ← pyGetN thisline 5
    let v ← reqInt t
    let el ← pySetN s.el_num 0 v
    .ok { s with el_num := el }
  else if strIn "Number of beta electrons" line then do
    let t ← pyGetN thisline 5
    let v ← reqInt t
    let el ← pySetN s.el_num 1 v
    .ok { s with el_num := el }
  else if strIn "Atomic numbers" line then do
    let t ← pyLast thisline
    let v ← reqInt t
    .ok (fchkGeoKw s 0 v)
  else if strIn "Integer atomic weights" line then do
    let t ← pyLast thisline
    let v ← reqInt t
    .ok (fchkGeoKw s 2 v)
  else if strIn "Total Energy" line then do
    let t ← pyGetN thisline 3
    let v ← reqFloat t
    .ok { s with qc := { s.qc with etot := some v } }
  else if strIn "Current cartesian coordinates" line then do
    let t ← pyLast thisline
    let v ← reqInt t
    .ok { s with at_num := Int.fdiv v 3, sec_flag := FSec.gpos,
                 qc := { s.qc with geo_spec := [] }, count := some 0, xyz := some [] }
  else if strIn "Shell types" line then do
    let t ← pyLast thisline
    let v ← reqInt t
    .ok (fchkAOKw s FIdx.stype v)
  else if strIn "Number of primitives per shell" line then do
    let t ← pyLast thisline
    let v ← reqInt t
    .ok (fchkAOKw s FIdx.spnum v)
  else if strIn "Shell to atom map" line then do
    let t ← pyLast thisline
    let v ← reqInt t
    .ok (fchkAOKw s FIdx.satom v)
  else if strIn "Primitive exponents" line then do
    let t ← pyLast thisline
    let v ← reqInt t
    fchkPrimKw s v 0
  else if strIn "Contraction coefficients" line then do
    let t ← pyLast thisline
    let v ← reqInt t
    fchkPrimKw s v 1
  else if strIn "Orbital Energies" line then do
    let t ← pyLast thisline
    let v ← reqInt t
    fchkOrbEnergiesKw s line v
  else if strIn "MO coefficients" line then do
    let t ← pyLast thisline
    let v ← reqInt t
    .ok { s with sec_flag := FSec.moc, count := some 0, mo_num := some v }
  else
    match s.sec_flag with
    | FSec.off => .ok s
    | FSec.geo => thisline.foldlM fchkGeoInfoTok s
    | FSec.gpos => thisline.foldlM fchkGeoPosTok s
    | FSec.aoi => thisline.foldlM fchkAOInfoTok s
    | FSec.aoc => do
      let s ← thisline.foldlM fchkAOCoeffTok s
      if s.ao_num = 0 then .ok { s with sec_flag := FSec.off } else .ok s
    | FSec.moe => thisline.foldlM fchkMOEnergyTok s
    | FSec.moc => thisline.foldlM fchkMOCoeffTok s

/-- The full line loop of `read_gaussian_fchk`. -/
def fchkScan (flines : List String) : Except Err FchkSt :=
  flines.foldlM fchkStep {}

/-- `read_gaussian_fchk`: the line loop and the occupied-orbital filter
unless `all_mo` is set. -/
def read_gaussian_fchk (flines : List String) (all_mo : Bool) : Except Err QCinfo := do
  let st ← fchkScan flines
  let qc := st.qc
  if all_mo then .ok qc
  else do
    let mos ← occFilter qc.mo_spec
    .ok { qc with mo_spec := mos }

/-! ## The narrative-log parser (`read_gaussian_log`) -/

/-- Python `s[:-1]` (drop the final character). -/
def dropLastChar (s : String) : String := String.mk (s.data.take (s.data.length - 1))

/-- The first-pass census of `read_gaussian_log`. -/
structure LogCensus where
  geometry : Nat := 0
  geometry_input : Nat := 0
  atomic_orbitals : Nat := 0
  molecular_orbitals : List String := []
  state : List String := []
  deriving DecidableEq, Repr

/-- The pass-1 loop also keeps the local `mo_type` of the last seen
coefficient header. -/
structure LogPass1St where
  count : LogCensus := {}
  mo_type : Option String := none
  deriving DecidableEq, Repr

/-- One census step: count geometry headers by orientation, insist on
Cartesian basis announcements, count AO-basis blocks, collect electronic
states, and record each MO-coefficient block's tag, merging a `Beta` block
into the preceding entry as `Alpha&Beta`. -/
def logCensusStep (orientation : String) (s : LogPass1St) (line : String) :
    Except Err LogPass1St := do
  let thisline := pySplit line
  if strIn " orientation:" line then
    let c := s.count
    let c := if strIn (orientation ++ " orientation:") (strLower line) then
        { c with geometry := c.geometry + 1 } else c
    let c := if strIn "input orientation:" (strLower line) then
        { c with geometry_input := c.geometry_input + 1 } else c
    .ok { s with count := c }
  else if strIn "Standard basis:" line ∨ strIn "General basis read from cards:" line then
    if ¬ strIn "(6D, 10F)" line then
      .error (Err.ioError "Please apply a Cartesian Gaussian Basis Sets (6D, 10F)!")
    else .ok s
  else if strIn "AO basis set" line then
    .ok { s with count := { s.count with atomic_orbitals := s.count.atomic_orbitals + 1 } }
  else if strIn "The electronic state is " line then do
    let t ← pyLast thisline
    .ok { s with count := { s.count with state := s.count.state ++ [dropLastChar t] } }
  else if strIn "Orbital Coefficients:" line then do
    let mt ← pyGetN thisline 0
    let s := { s with mo_type := some mt }
    if mt ≠ "Beta" then
      .ok { s with count := { s.count with
        molecular_orbitals := s.count.molecular_orbitals ++ [mt] } }
    else do
      let mos ← pySetI s.count.molecular_orbitals (-1) "Alpha&Beta"
      .ok { s with count := { s.count with molecular_orbitals := mos } }
  else .ok s

/-- The whole first pass. -/
def logCensus (flines : List String) (orientation : String) : Except Err LogCensus := do
  let s ← flines.foldlM (logCensusStep orientation) {}
  .ok s.count

/-- `check_sel`: resolve a requested occurrence index against a census
count.  A zero count raises `IndexError` (left for the caller's fallback
handling); a count of one short-circuits to 0; otherwise, interactively a
line is read from the input stream (`EOFError` when exhausted — that one is
not caught by the `except` clause) and parsed, and the index is resolved
through `range(count)[i]`, so negative indices address from the end;
a parse failure or out-of-range index raises `IOError` with the prompt
message. -/
def check_sel (cnt : Nat) (i : Int) (interactive : Bool) (stdin : List String) :
    Except Err (Int × List String) :=
  if cnt = 0 then .error .indexError
  else if cnt = 1 then .ok (0, stdin)
  else
    let message := "\tPlease give an integer from 0 to " ++ toString (cnt - 1) ++ ": "
    let ioErr := Err.ioError (strReplace message ":" "!")
    if interactive then
      match stdin with
      | [] => .error .eofError
      | tok :: rest =>
        match pyInt? tok with
        | none => .error ioErr
        | some j =>
          match pyIdx (List.range cnt) j with
          | some v => .ok ((v : Int), rest)
          | none => .error ioErr
    else
      match pyIdx (List.range cnt) i with
      | some v => .ok ((v : Int), stdin)
      | none => .error ioErr

/-- Geometry selection with the alternate-orientation fallback: when the
requested orientation has zero census occurrences, the census count of the
other (`input`) orientation is substituted and the selection retried; a
second `IndexError` becomes the fatal no-geometry `IOError`.  Returns the
resolved index, the (possibly switched) orientation, and the remaining
input stream. -/
def logResolveGeo (countGeo countInput : Nat) (i_geo : Int) (interactive : Bool)
    (stdin : List String) (orientation : String) :
    Except Err (Int × String × List String) :=
  match check_sel countGeo i_geo interactive stdin with
  | .ok (i, st) => .ok (i, orientation, st)
  | .error .indexError =>
    match check_sel countInput i_geo interactive stdin with
    | .ok (i, st) => .ok (i, "input", st)
    | .error .indexError =>
      .error (Err.ioError
        "Found no geometry section! Are you sure this is a GAUSSIAN .log file?")
    | .error e => .error e
  | .error e => .error e

/-- AO-section selection: a zero count is turned into the explanatory
`IOError` naming the `GFINPUT` route option. -/
def logResolveAO (countAO : Nat) (i_ao : Int) (interactive : Bool)
    (stdin : List String) : Except Err (Int × List String) :=
  match check_sel countAO i_ao interactive stdin with
  | .error .indexError =>
    .error (Err.ioError
      "Write GFINPUT in your GAUSSIAN route section to print the basis set information!")
  | r => r

/-- The pass-2 mode. -/
inductive LSec where
  | off
  | geo
  | ao
  | msym
  | mo
  deriving DecidableEq, Repr

/-- The fixed context of pass 2: resolved orientation and section indices
plus the census list of MO-block tags. -/
structure LogCtx where
  orientation : String
  i_geo : Int
  i_ao : Int
  i_mo : Int
  moList : List String
  deriving DecidableEq, Repr

/-- The loop-carried locals of pass 2 (`occ` and `eigen` of the source are
initialised but never used and are omitted). -/
structure LogSt where
  qc : QCinfo := {}
  sec_flag : LSec := LSec.off
  skip : Nat := 0
  c_geo : Nat := 0
  c_ao : Nat := 0
  c_mo : Nat := 0
  orb_sym : List String := []
  basis_count : Nat := 0
  bNew : Option Bool := none
  at_num : Option Int := none
  ao_num : Option Nat := none
  ao_type : Option String := none
  mo_type : Option String := none
  offset : Option Nat := none
  add : Option String := none
  index : List Nat := []
  deriving DecidableEq, Repr

/-- Lookahead at the following file line; past the last line the source's
`flines[il+1]` raises `IndexError`. -/
def peekNext : Option String → Except Err String
  | some l => .ok l
  | none => .error .indexError

/-- Pass-2 geometry body: four banner lines are skipped, each data line
yields one atom (columns 1 and 0 as label and serial, coordinates from
token 3 on, always Ångström-converted), and a dashed line ahead ends the
section. -/
def logGeoLine (s : LogSt) (thisline : List String) (next? : Option String) :
    Except Err LogSt := do
  if s.skip = 0 then do
    let t0 ← pyGetN thisline 0
    let t1 ← pyGetN thisline 1
    let vals ← (thisline.drop 3).mapM reqFloat
    let qc := s.qc
    let s := { s with qc := { qc with
      geo_info := qc.geo_info ++ [[GVal.str t1, GVal.str t0, GVal.str t1]],
      geo_spec := qc.geo_spec ++ [vals.map (fun v => aaToAuConv * v)] } }
    let nxt ← peekNext next?
    if strIn "-----------" nxt then .ok { s with sec_flag := LSec.off }
    else .ok s
  else
    .ok { s with skip := s.skip - 1 }

/-- Pass-2 AO body: `****` separates atoms (a blank line after it ends the
section), an atom-number line follows, a 4-token line opens one shell per
letter of its (possibly combined) type, and further lines carry one
primitive row shared by the sibling shells. -/
def logAOLine (s : LogSt) (thisline : List String) (line : String)
    (next? : Option String) : Except Err LogSt := do
  if strIn " ****" line then do
    let s := { s with bNew := some true }
    let nxt ← peekNext next?
    if (pySplit nxt).isEmpty then .ok { s with sec_flag := LSec.off }
    else .ok s
  else do
    let b ← needName s.bNew
    if b then do
      let t0 ← pyGetN thisline 0
      let n ← reqInt t0
      .ok { s with bNew := some false, at_num := some (n - 1), ao_num := some 0 }
    else if thisline.length = 4 then do
      let t0 ← pyGetN thisline 0
      let aot := strLower t0
      let t1 ← pyGetN thisline 1
      let pnum ← reqInt t1
      let atn ← needName s.at_num
      let p ← aot.data.foldlM (fun (p : Nat × List AOShell) ch => do
        let l ← needKey (lquant? (String.mk [ch]))
        let rows ← if pnum < 0 then .error Err.valueError
                   else .ok (List.replicate pnum.toNat [(0 : ℚ), 0])
        .ok (p.1 + l_deg l, p.2 ++
          [{ atom := some atn, type := some (String.mk [ch]), pnum := some pnum,
             coeffs := some rows : AOShell }])) (s.basis_count, [])
      .ok { s with ao_num := some 0, ao_type := some aot, basis_count := p.1,
                   qc := { s.qc with ao_spec := s.qc.ao_spec ++ p.2 } }
    else do
      let vals ← (pySplit (strReplace line "D" "e")).mapM reqFloat
      let aot ← needName s.ao_type
      let n := aot.data.length
      let c0 ← pyGetN vals 0
      let an ← needName s.ao_num
      let ao ← (List.range n).foldlM (fun acc i => do
        let ci ← pyGetN vals (1 + i)
        let sh ← pyGetI acc ((i : Int) - n)
        let rows ← needKey sh.coeffs
        let rows ← pySetN rows an [c0, ci]
        pySetI acc ((i : Int) - n) { sh with coeffs := some rows }) s.qc.ao_spec
      .ok { s with ao_num := some (an + 1), qc := { s.qc with ao_spec := ao } }

/-- Pass-2 orbital-symmetry body: strip parentheses from character 18 on,
remember the spin tag, and collect each label suffixed with it. -/
def logMoSymLine (s : LogSt) (line : String) : Except Err LogSt := do
  if strIn "The electronic state is" line then
    .ok { s with sec_flag := LSec.off }
  else do
    let info := pySplit (strReplace (strReplace (pyDropChars 18 line) "(" "") ")" "")
    let add0 ← needName s.add
    let add := if strIn "Alpha" line then "(a)" else if strIn "Beta" line then "(b)" else add0
    .ok { s with add := some add,
                 orb_sym := s.orb_sym ++ info.map (fun i => i ++ add) }

/-- Pass-2 MO body: the first 21 characters are the row label, the rest the
column values.  A blank label either records the column numbering into
`index` (on a fresh block) or is the `O`/`V` occupancy line (doubled unless
the block tag is a substring of `Alpha&Beta`, exactly as the source's
`mo_type not in 'Alpha&Beta'` reads); an `Eigenvalues` label carries
energies (or occupations for `Natural` blocks); any other label is a
coefficient row, and completing row `basis_count` closes the block and,
once every symmetry label is used, the section. -/
def logMoLine (s : LogSt) (line : String) : Except Err LogSt := do
  let info := pySplit (pyTakeChars 21 line)
  let coeffs := pySplit (pyDropChars 21 line)
  if info.isEmpty then do
    let b ← needName s.bNew
    if b then do
      let off ← needName s.offset
      .ok { s with index := (List.range coeffs.length).map (fun i => off + i),
                   bNew := some false }
    else do
      let mt ← needName s.mo_type
      let mos ← (List.range s.index.length).foldlM (fun acc i => do
        let j ← pyGetN s.index i
        let c ← pyGetN coeffs i
        let m ← pyGetN acc j
        let occ1 : ℚ := if strIn "O" c then 1 else 0
        let occ2 : ℚ := if ¬ strIn mt "Alpha&Beta" then occ1 * 2 else occ1
        pySetN acc j { m with occ_num := some occ2 }) s.qc.mo_spec
      .ok { s with qc := { s.qc with mo_spec := mos } }
  else if info.contains "Eigenvalues" then do
    let mt ← needName s.mo_type
    let mos ← (List.range s.index.length).foldlM (fun acc i => do
      let j ← pyGetN s.index i
      let c ← pyGetN coeffs i
      let v ← reqFloat c
      let m ← pyGetN acc j
      let m := if mt = "Natural" then { m with occ_num := some v }
               else { m with energy := some v }
      pySetN acc j m) s.qc.mo_spec
    .ok { s with qc := { s.qc with mo_spec := mos } }
  else do
    let t0 ← pyGetN info 0
    let r ← reqInt t0
    let mos ← (List.range s.index.length).foldlM (fun acc i => do
      let j ← pyGetN s.index i
      let c ← pyGetN coeffs i
      let v ← reqFloat c
      let m ← pyGetN acc j
      let cf ← pySetI m.coeffs (r - 1) v
      pySetN acc j { m with coeffs := cf }) s.qc.mo_spec
    let s := { s with qc := { s.qc with mo_spec := mos } }
    if r = (s.basis_count : Int) then do
      let lastIdx ← pyLast s.index
      let s := { s with bNew := some true, offset := some (lastIdx + 1) }
      if lastIdx + 1 = s.orb_sym.length then
        .ok { s with sec_flag := LSec.off, orb_sym := [] }
      else .ok s
    else .ok s

/-- The `Orbital Coefficients:` header handler of pass 2: when this is the
selected occurrence, reset `mo_spec`, synthesise default symmetry labels if
none were collected (one per basis function, doubled and suffix-tagged for
an `Alpha&Beta` pair), and create one orbital per label with a
`<k>.<label>` symmetry where `k` counts prior occurrences of the label;
afterwards, the occurrence counter advances unless the block tag is
`Beta`. -/
def logMoHeader (ctx : LogCtx) (s : LogSt) : Except Err LogSt := do
  let s ←
    if ctx.i_mo = (s.c_mo : Int) then do
      let mt ← pyGetI ctx.moList ctx.i_mo
      let qc0 := { s.qc with mo_spec := ([] : List MO) }
      let s := { s with
        sec_flag := LSec.mo, mo_type := some mt, qc := qc0,
        offset := some 0, add := some "" }
      let s :=
        if s.orb_sym.isEmpty then
          let add1 := if strIn "Alpha" mt then "(a)" else ""
          let sym1 := List.replicate s.basis_count ("A1" ++ add1)
          let sym2 := if strIn "Beta" mt then
              sym1 ++ List.replicate s.basis_count "A1(b)" else sym1
          let add2 := if strIn "Beta" mt then "(b)" else add1
          { s with orb_sym := sym2, add := some add2 }
        else s
      let mos : List MO := (List.range s.orb_sym.length).map (fun i =>
        let lbl := (s.orb_sym.get? i).getD ""
        let c := ((s.orb_sym.take (i + 1)).filter (fun x => x = lbl)).length
        { coeffs := List.replicate s.basis_count (0 : ℚ), energy := some 0,
          sym := some (toString c ++ "." ++ lbl) })
      .ok { s with qc := { s.qc with mo_spec := s.qc.mo_spec ++ mos } }
    else .ok s
  let mt ← needName s.mo_type
  let s := if mt ≠ "Beta" then { s with c_mo := s.c_mo + 1 } else s
  .ok { s with bNew := some true }

/-- One iteration of the pass-2 line loop, with one line of lookahead. -/
def logStep (ctx : LogCtx) (s : LogSt) (line : String) (next? : Option String) :
    Except Err LogSt := do
  let thisline := pySplit line
  if strIn (ctx.orientation ++ " orientation:") (strLower line) then
    let s :=
      if ctx.i_geo = (s.c_geo : Int) then
        { s with qc := { s.qc with geo_info := [], geo_spec := [] },
                 sec_flag := LSec.geo }
      else s
    .ok { s with c_geo := s.c_geo + 1, skip := 4 }
  else if strIn "Standard basis:" line then
    if ¬ strIn "(6D, 10F)" line then
      .error (Err.ioError "Please apply a Cartesian Gaussian Basis Sets (6D, 10F)!")
    else .ok s
  else if strIn "AO basis set" line then
    let s :=
      if ctx.i_ao = (s.c_ao : Int) then
        { s with qc := { s.qc with ao_spec := [] }, sec_flag := LSec.ao }
      else s
    .ok { s with c_ao := s.c_ao + 1, basis_count := 0, bNew := some true }
  else if strIn "Orbital symmetries:" line then
    .ok { s with sec_flag := LSec.msym, add := some "", orb_sym := [] }
  else if strIn "Orbital Coefficients:" line then
    logMoHeader ctx s
  else if strIn "E(" line then do
    let part ← pyGetN (splitOnCh '=' line) 1
    let tok ← pyGetN (pySplit part) 0
    let v ← reqFloat tok
    .ok { s with qc := { s.qc with etot := some v } }
  else
    match s.sec_flag with
    | LSec.off => .ok s
    | LSec.geo => logGeoLine s thisline next?
    | LSec.ao => logAOLine s thisline line next?
    | LSec.msym => logMoSymLine s line
    | LSec.mo => logMoLine s line

/-- The pass-2 loop over the file, carrying the one-line lookahead. -/
def logLoop (ctx : LogCtx) : LogSt → List String → Except Err LogSt
  | s, [] => .ok s
  | s, line :: rest => do
    let s ← logStep ctx s line rest.head?
    logLoop ctx s rest

/-- `read_gaussian_log`: census, the three selections (geometry with the
orientation fallback), pass 2, and the occupied-orbital filter unless
`all_mo` is set.  The interactive selection's `raw_input` is modelled by an
explicit input stream `stdin`. -/
def read_gaussian_log (flines : List String) (all_mo : Bool) (orientation : String)
    (i_geo i_ao i_mo : Int) (interactive : Bool) (stdin : List String) :
    Except Err QCinfo := do
  let census ← logCensus flines orientation
  let g ← logResolveGeo census.geometry census.geometry_input i_geo interactive
            stdin orientation
  let a ← logResolveAO census.atomic_orbitals i_ao interactive g.2.2
  let m ← check_sel census.molecular_orbitals.length i_mo interactive a.2
  let ctx : LogCtx := { orientation := g.2.1, i_geo := g.1, i_ao := a.1,
                        i_mo := m.1, moList := census.molecular_orbitals }
  let st ← logLoop ctx {} flines
  let qc := st.qc
  if all_mo then .ok qc
  else do
    let mos ← occFilter qc.mo_spec
    .ok { qc with mo_spec := mos }

/-! ## The dispatcher (`main_read`) -/

/-- `main_read`: route the request through the `reader` dict.  Looking up a
tag outside the dict raises `KeyError` before any parser runs; a known tag
calls its parser with the same `all_mo` and the remaining parameters of
`read_gaussian_log` at their default values (`standard` orientation, all
indices `-1`, interactive selection).  The process input stream consumed by
the interactive selection is passed explicitly as `stdin`. -/
def main_read (flines : List String) (itype : String) (all_mo : Bool)
    (stdin : List String) : Except Err QCinfo :=
  if itype = "molden" then read_molden flines all_mo
  else if itype = "gamess" then read_gamess flines all_mo
  else if itype = "gaussian.log" then
    read_gaussian_log flines all_mo "standard" (-1) (-1) (-1) true stdin
  else if itype = "gaussian.fchk" then read_gaussian_fchk flines all_mo
  else .error Err.keyError

/-! ## Keyword classifiers

One Bool per parser telling whether a line is caught by the parser's
keyword `elif` chain (in which case the section bodies never see it). -/

/-- Does the molden loop's keyword chain catch this line? -/
def moldenKw (line : String) : Bool :=
  strIn "[Molden Format]" line || strIn "_ENERGY=" line || strIn "[Atoms]" line ||
  strIn "[GTO]" line || strIn "[MO]" line || strIn "[STO]" line

/-- Does the gamess loop's keyword chain catch this line? -/
def gamessKw (line : String) : Bool :=
  strIn " ATOM      ATOMIC                      COORDINATES" line ||
  strIn "ATOMIC BASIS SET" line ||
  strIn "          EIGENVECTORS" line ||
  strIn "CIS TRANSITION DIPOLE MOMENTS AND" line ||
  strIn "NUMBER OF STATES REQUESTED" line ||
  strIn "SPIN MULTIPLICITY" line ||
  strIn "FINAL" line ||
  strIn " NUMBER OF OCCUPIED ORBITALS (ALPHA)          =" line ||
  strIn " NUMBER OF OCCUPIED ORBITALS (BETA )          =" line ||
  strIn "          ECP POTENTIALS" line ||
  strIn " NUMBER OF OCCUPIED ORBITALS (ALPHA) KEPT IS    =" line ||
  strIn " NUMBER OF OCCUPIED ORBITALS (BETA ) KEPT IS    =" line

/-- Does the checkpoint loop's keyword chain catch this line? -/
def fchkKw (line : String) : Bool :=
  strIn "Number of alpha electrons" line || strIn "Number of beta electrons" line ||
  strIn "Atomic numbers" line || strIn "Integer atomic weights" line ||
  strIn "Total Energy" line || strIn "Current cartesian coordinates" line ||
  strIn "Shell types" line || strIn "Number of primitives per shell" line ||
  strIn "Shell to atom map" line || strIn "Primitive exponents" line ||
  strIn "Contraction coefficients" line || strIn "Orbital Energies" line ||
  strIn "MO coefficients" line

/-! ## Concrete input files used by the evaluation theorems -/

/-- A concatenated two-record molden file: both records declare one atom
with a single `s` shell and one orbital carrying one coefficient line. -/
def c1File : List String :=
  ["[Molden Format]", "[Atoms] AU", "C 1 6 0.0 0.0 0.0",
   "[GTO]", "1 0", "s 1 1.00", "1.0 1.0", "",
   "[MO]", "Ene= -1.0", "Occup= 2.0", "1 0.5",
   "[Molden Format]", "[Atoms] AU", "C 1 6 0.0 0.0 0.0",
   "[GTO]", "1 0", "s 1 1.00", "1.0 1.0", "",
   "[MO]", "Ene= -1.0", "Occup= 2.0", "1 0.5"]

/-- A minimal complete gamess output (geometry, basis, occupied-orbital
counts 1/1, final energy, a two-orbital eigenvector block, and the CIS
lines the unconditional transition-dipole save requires): the second
orbital ends with occupation 0. -/
def c2File : List String :=
  [" ATOM      ATOMIC                      COORDINATES (BOHR)",
   " CHARGE X Y Z",
   " C 6.0 0.0 0.0 0.0",
   "",
   " ATOMIC BASIS SET",
   "x1", "x2", "x3", "x4", "x5", "x6",
   " C",
   "",
   "   1   S    1      0.5   1.0",
   " TOTAL NUMBER OF BASIS SET SHELLS = 1",
   " NUMBER OF OCCUPIED ORBITALS (ALPHA)          =    1",
   " NUMBER OF OCCUPIED ORBITALS (BETA )          =    1",
   " SPIN MULTIPLICITY                           =    1",
   " FINAL RHF ENERGY IS      -1.0 AFTER   1 ITERATIONS",
   "          EIGENVECTORS",
   "          ------------",
   "",
   "                      1          2",
   "                   -0.5        0.5",
   "                     A          A",
   "  1  C 1  S     0.7   0.3",
   " ...... END OF RHF CALCULATION ......",
   " NUMBER OF STATES REQUESTED =    1",
   "          CIS TRANSITION DIPOLE MOMENTS AND DIPOLE MOMENTS",
   " X"]

/-- The same gamess output with an open-shell occupation count pair:
2 occupied alpha, 1 occupied beta. -/
def c3File : List String :=
  c2File.map (fun l =>
    if l = " NUMBER OF OCCUPIED ORBITALS (ALPHA)          =    1" then
      " NUMBER OF OCCUPIED ORBITALS (ALPHA)          =    2" else l)

/-- A gamess output with two carbon atoms whose basis sets differ: the first
atom carries an S and a P shell, the second only the (identical) S shell, so
the two atoms' coefficient lists are not identical. -/
def c5File : List String :=
  [" ATOM      ATOMIC                      COORDINATES (BOHR)",
   " CHARGE X Y Z",
   " C 6.0 0.0 0.0 0.0",
   " C 6.0 1.0 0.0 0.0",
   "",
   " ATOMIC BASIS SET",
   "x1", "x2", "x3", "x4", "x5", "x6",
   " C",
   "",
   "   1   S    1      0.5   1.0",
   "",
   "   2   P    1      0.3   1.0",
   " C",
   "",
   "   1   S    1      0.5   1.0",
   " TOTAL NUMBER OF BASIS SET SHELLS = 3",
   " NUMBER OF OCCUPIED ORBITALS (ALPHA)          =    1",
   " NUMBER OF OCCUPIED ORBITALS (BETA )          =    1",
   " SPIN MULTIPLICITY                           =    1",
   " FINAL RHF ENERGY IS      -1.0 AFTER   1 ITERATIONS",
   "          EIGENVECTORS",
   "          ------------",
   "",
   "                      1          2",
   "                   -0.5        0.5",
   "                     A          A",
   "  1  C 1  S     0.7   0.3",
   " ...... END OF RHF CALCULATION ......",
   " NUMBER OF STATES REQUESTED =    1",
   "          CIS TRANSITION DIPOLE MOMENTS AND DIPOLE MOMENTS",
   " X"]

/-- A gamess output with two carbon atoms carrying one S shell each, with
coefficient lists of equal length but a differing contraction coefficient. -/
def c5FileB : List String :=
  [" ATOM      ATOMIC                      COORDINATES (BOHR)",
   " CHARGE X Y Z",
   " C 6.0 0.0 0.0 0.0",
   " C 6.0 1.0 0.0 0.0",
   "",
   " ATOMIC BASIS SET",
   "x1", "x2", "x3", "x4", "x5", "x6",
   " C",
   "",
   "   1   S    1      0.5   1.0",
   " C",
   "",
   "   1   S    1      0.5   2.0",
   " TOTAL NUMBER OF BASIS SET SHELLS = 2",
   " NUMBER OF OCCUPIED ORBITALS (ALPHA)          =    1",
   " NUMBER OF OCCUPIED ORBITALS (BETA )          =    1",
   " SPIN MULTIPLICITY                           =    1",
   " FINAL RHF ENERGY IS      -1.0 AFTER   1 ITERATIONS",
   "          EIGENVECTORS",
   "          ------------",
   "",
   "                      1          2",
   "                   -0.5        0.5",
   "                     A          A",
   "  1  C 1  S     0.7   0.3",
   " ...... END OF RHF CALCULATION ......",
   " NUMBER OF STATES REQUESTED =    1",
   "          CIS TRANSITION DIPOLE MOMENTS AND DIPOLE MOMENTS",
   " X"]

/-- A fresh orbital as the gamess eigenvector block creates them. -/
def freshGMO : MO := { coeffs := [], energy := some 0, occ_num := some 0, sym := some "" }

/-- A two-coefficient orbital with both coefficients still zero. -/
def c6MO : MO := { coeffs := [0, 0], energy := some (-1), occ_num := some 2, sym := some "1.1" }

/-- A mid-`[MO]`-section molden state holding `c6MO`. -/
def c6St : MoldenSt :=
  { qc := some { mo_spec := [c6MO] }, sec_flag := some MSec.mo,
    aa_to_au := some 1, bNew := some false, basis_count := 2 }

/-- A concrete `Orbital Energies` keyword line declaring four orbitals. -/
def c10line : String := "Alpha Orbital Energies                             R   N=           4"

/-- One geometry section of a narrative log: header, the four banner rows,
one atom row with the given x coordinate (in Ångström), and the closing
dashed row. -/
def c7geoSec (hdr x : String) : List String :=
  [hdr,
   " ---------------------------------------------------------------------",
   " Center     Atomic      Atomic             Coordinates (Angstroms)",
   " Number     Number       Type             X           Y           Z",
   " ---------------------------------------------------------------------",
   "      1          6           0        " ++ x ++ "    0.0    0.0",
   " ---------------------------------------------------------------------"]

/-- A narrative log with three standard-orientation geometries (x = 1, 2, 3),
one input-orientation geometry (x = 9) printed between the second and third,
one AO basis block and one MO block. -/
def c7File : List String :=
  c7geoSec " Standard orientation:" "1.0" ++
  c7geoSec " Standard orientation:" "2.0" ++
  c7geoSec " Input orientation:" "9.0" ++
  c7geoSec " Standard orientation:" "3.0" ++
  [" AO basis set in the form of general basis input:",
   "  1 0",
   " S   1 1.00       0.000000000000",
   "      0.5000000000D+00  0.1000000000D+01",
   " ****",
   "",
   " SCF Done:  E(RHF) =  -1.0     A.U. after    1 cycles",
   "     Molecular Orbital Coefficients:",
   "                           1",
   "                     (A1)--O",
   "     Eigenvalues --    -0.5",
   "   1 1   C  1S        0.7"]

/-- A gamess state inside the transition-dipole section with initialised
arrays for one excited state, before any sub-mode was entered. -/
def c8st1 : GamessSt :=
  { sec_flag := GSec.tdm, tdm_flag := some TFlag.noneF, tdm_nstates := some 1,
    tdm_state_dipole := PyVar.val [[0, 0, 0], [0, 0, 0]],
    tdm_state_multiplicity := some [0, 0], tdm_state_energy := some [0, 0],
    tdm_tdm := some [[[0, 0, 0], [0, 0, 0]]] }

/-- The same state inside the excited-state sub-mode, pointing at state 1. -/
def c8st2 : GamessSt := { c8st1 with tdm_flag := some TFlag.state, tdm_state := some 1 }

/-- The same state inside the transition sub-mode for the 0 → 1 pair. -/
def c8st3 : GamessSt :=
  { c8st1 with tdm_flag := some TFlag.trans, tdm_trans_states := some [0, 1] }

/-! ## The claims -/

/-- Reduction of a bind on a successful `Except`. -/
@[simp] theorem exbind_ok (a : α) (f : α → Except Err β) :
    (Except.ok a >>= f : Except Err β) = f a := rfl

/-- Reduction of a bind on a failed `Except`. -/
@[simp] theorem exbind_err (e : Err) (f : α → Except Err β) :
    ((Except.error e : Except Err α) >>= f) = .error e := rfl

/-- Setting a list element to a value with the same image under `f` leaves
the `f`-image of the list unchanged. -/
theorem map_set_same {α γ : Type} (f : α → γ) :
    ∀ (xs : List α) (n : Nat) (m m2 : α), xs.get? n = some m → f m2 = f m →
      (xs.set n m2).map f = xs.map f := by
  intro xs
  induction xs with
  | nil => intro n m m2 h _; simp at h
  | cons a as ih =>
    intro n m m2 h hf
    cases n with
    | zero =>
      simp only [List.get?] at h
      cases h
      simp [List.set, hf]
    | succ k =>
      simp only [List.get?] at h
      simp [List.set, ih k m m2 h hf]

/-- A Python-style element update with an image-preserving value keeps the
mapped list intact. -/
theorem pySetI_preserve {α γ : Type} (g : α → γ) (xs : List α) (i : Int)
    (m m2 : α) (ys : List α) (hg : pyGetI xs i = .ok m) (hf : g m2 = g m)
    (hs : pySetI xs i m2 = .ok ys) : ys.map g = xs.map g := by
  unfold pyGetI at hg
  unfold pySetI at hs
  by_cases h0 : 0 ≤ i
  · rw [if_pos h0] at hs
    have hidx : pyIdx xs i = xs.get? i.toNat := by unfold pyIdx; rw [if_pos h0]
    rw [hidx] at hg
    unfold pySetN at hs
    by_cases hl : i.toNat < xs.length
    · rw [if_pos hl] at hs
      cases hs
      cases hget : xs.get? i.toNat with
      | none => rw [hget] at hg; cases hg
      | some w =>
        rw [hget] at hg
        cases hg
        exact map_set_same g xs i.toNat _ m2 hget hf
    · rw [if_neg hl] at hs; cases hs
  · rw [if_neg h0] at hs
    by_cases h1 : 0 ≤ i + xs.length
    · rw [if_pos h1] at hs
      have hidx : pyIdx xs i = xs.get? (i + xs.length).toNat := by
        unfold pyIdx; rw [if_neg h0, if_pos h1]
      rw [hidx] at hg
      unfold pySetN at hs
      by_cases hl : (i + xs.length).toNat < xs.length
      · rw [if_pos hl] at hs
        cases hs
        cases hget : xs.get? (i + xs.length).toNat with
        | none => rw [hget] at hg; cases hg
        | some w =>
          rw [hget] at hg
          cases hg
          exact map_set_same g xs (i + xs.length).toNat _ m2 hget hf
      · rw [if_neg hl] at hs; cases hs
    · rw [if_neg h1] at hs; cases hs

/-- An `Except` fold whose every successful step preserves `g` preserves
`g` overall. -/
theorem foldlM_except_preserve {σ τ γ : Type} (f : σ → τ → Except Err σ) (g : σ → γ)
    (h : ∀ s t s2, f s t = .ok s2 → g s2 = g s) :
    ∀ (l : List τ) (s s2 : σ), l.foldlM f s = .ok s2 → g s2 = g s := by
  intro l
  induction l with
  | nil =>
    intro s s2 hh
    have hh2 : (Except.ok s : Except Err σ) = .ok s2 := hh
    cases hh2
    rfl
  | cons t ts ih =>
    intro s s2 hh
    have hh2 : (f s t >>= fun s1 => ts.foldlM f s1) = .ok s2 := hh
    cases hf : f s t with
    | error e => rw [hf] at hh2; simp at hh2
    | ok s1 =>
      rw [hf] at hh2
      simp only [exbind_ok] at hh2
      exact (ih s1 s2 hh2).trans (h s t s1 hf)

/-- C1: the claimed invariant `len(mo.coeffs) = basisCount` fails on the
code for a concatenated two-record molden file, because `basis_count` is
not re-initialised when the second `[Molden Format]` line resets the record:
the parse succeeds, the returned (second) record has one `s` shell, so its
`basisCount` is 1, yet its only orbital carries a coefficient vector of
length 2.  (The spec states that re-entering `[Molden Format]` resets all
state; the missing `basis_count = 0` reset is the code slip.) -/
theorem c1_molden_concat_eval :
    (read_molden c1File false).toOption.map
      (fun qc => (qc.mo_spec.map (fun m => m.coeffs.length), basisCountOf qc)) =
      some ([2], 1) := by decide

/-- C2: `read_gamess` accepts the `all_mo` flag but never applies the
occupied-orbital filter: its result is independent of `all_mo`, and on a
concrete complete gamess output with occupations `[2, 0]` the returned
record still contains the occupation-0 orbital although `0` is not above
the `1e-7` threshold.  (The other three parsers do apply the filter; the
gamess docstring documents `all_mo` identically, so the missing filter is
the code slip.) -/
theorem c2_gamess_ignores_all_mo :
    (∀ flines, read_gamess flines false = read_gamess flines true) ∧
    (read_gamess c2File false).toOption.map (fun qc => qc.mo_spec.map MO.occ_num) =
      some [some 2, some 0] ∧
    ¬ ((0 : ℚ) > occEps) := by
  refine ⟨fun _ => rfl, by decide, by decide⟩

/-- C3: the occupation-assignment loop is written with three independent
`if` statements (not `elif`): when one counter reaches zero inside the
first branch while the other is still positive, a later branch fires on the
same orbital, which therefore receives occupation 3 — not one of the
claimed values 2, 1, 0.  Both depleting directions exhibit it, and so does
the full parser on an alpha/beta count pair of 2/1. -/
theorem c3_occupation_three :
    gamessOccPair 2 1 = (3, 0, 0) ∧
    gamessOccPair 1 2 = (3, 0, 0) ∧
    (gamessOccLoop [freshGMO, freshGMO, freshGMO] 2 1).toOption.map
      (fun l => l.map MO.occ_num) = some [some 3, some 0, some 0] ∧
    (read_gamess c3File false).toOption.map (fun qc => qc.mo_spec.map MO.occ_num) =
      some [some 3, some 0] := by
  refine ⟨by decide, by decide, by decide, by decide⟩

/-- C9: the dispatcher routes each tag of the closed set to its parser and
returns that parser's result unchanged (the log parser receiving the
documented default selection parameters), and any other tag fails with the
lookup error (`KeyError` on the `reader` dict — the spec's
`UnsupportedFormat`) before any parser runs. -/
theorem c9_dispatch :
    (∀ flines stdin all_mo,
      main_read flines "molden" all_mo stdin = read_molden flines all_mo ∧
      main_read flines "gamess" all_mo stdin = read_gamess flines all_mo ∧
      main_read flines "gaussian.fchk" all_mo stdin = read_gaussian_fchk flines all_mo ∧
      main_read flines "gaussian.log" all_mo stdin =
        read_gaussian_log flines all_mo "standard" (-1) (-1) (-1) true stdin) ∧
    (∀ flines stdin all_mo itype,
      itype ∉ (["molden", "gamess", "gaussian.log", "gaussian.fchk"] : List String) →
      main_read flines itype all_mo stdin = .error Err.keyError) := by
  constructor
  · intro flines stdin all_mo
    exact ⟨rfl, rfl, rfl, rfl⟩
  · intro flines stdin all_mo itype h
    simp only [List.mem_cons, List.not_mem_nil, or_false, not_or] at h
    obtain ⟨h1, h2, h3, h4⟩ := h
    simp [main_read, h1, h2, h3, h4]

/-- Witness for C9: the unknown tag `xyz` fails with the lookup error. -/
theorem c9_dispatch_witness :
    main_read [] "xyz" false [] = .error Err.keyError :=
  c9_dispatch.2 [] [] false "xyz" (by decide)

/-- C6: in the molden MO section, a coefficient line whose value token fails
`float` leaves the parse alive: the step succeeds, the only state changes
are the re-armed `bNew` flag and one appended diagnostic naming the
orbital, and the record — hence the orbital's coefficient vector, its
length, and every entry including the still-zero one at the reported
index — is untouched. -/
theorem c6_molden_bad_coefficient (s : MoldenSt) (qc : QCinfo) (line : String)
    (t0 t1 : String) (n : Int) (m : MO) (sy : String) (k : Nat)
    (hq : s.qc = some qc)
    (hsec : s.sec_flag = some MSec.mo)
    (hkw : moldenKw line = false)
    (heq : strIn "=" line = false)
    (hbr : strIn "[" line = false)
    (htoks : pySplit line = [t0, t1])
    (hint : pyInt? t0 = some n)
    (hbad : pyFloat? t1 = none)
    (hm : pyLast qc.mo_spec = .ok m)
    (hsym : m.sym = some sy)
    (hzero : m.coeffs.get? k = some 0) :
    moldenStep s line =
      .ok { s with bNew := some true,
                   diags := s.diags ++
                     ["Error in coefficient " ++ toString (n - 1) ++ " of MO " ++ sy ++
                      "!" ++ "\nSetting this coefficient to zero..."] } ∧
    ∀ s2, moldenStep s line = .ok s2 → s2.qc = some qc ∧
      ∃ m2, pyLast qc.mo_spec = .ok m2 ∧ m2.coeffs.get? k = some 0 ∧
        m2.coeffs.length = m.coeffs.length := by
  simp only [moldenKw, Bool.or_eq_false_iff] at hkw
  obtain ⟨⟨⟨⟨⟨k1, k2⟩, k3⟩, k4⟩, k5⟩, k6⟩ := hkw
  have hstep : moldenStep s line =
      .ok { s with bNew := some true,
                   diags := s.diags ++
                     ["Error in coefficient " ++ toString (n - 1) ++ " of MO " ++ sy ++
                      "!" ++ "\nSetting this coefficient to zero..."] } := by
    simp only [moldenStep, k1, k2, k3, k4, k5, k6, hsec, heq, hbr, htoks]
    simp [moldenMOCoeff, hq, hsec, needName, pyGetN, reqInt, hint, hbad, hm, hsym, needKey]
  refine ⟨hstep, fun s2 h2 => ?_⟩
  rw [hstep] at h2
  cases h2
  exact ⟨hq, m, hm, hzero, rfl⟩

/-- Witness for C6: a concrete `[MO]`-section state and the line
`2 bogus`, whose value token fails to parse. -/
theorem c6_molden_bad_coefficient_witness :
    moldenStep c6St "2 bogus" =
      .ok { c6St with bNew := some true,
                      diags := c6St.diags ++
                        ["Error in coefficient " ++ toString ((2 : Int) - 1) ++ " of MO " ++
                         "1.1" ++ "!" ++ "\nSetting this coefficient to zero..."] } :=
  (c6_molden_bad_coefficient c6St { mo_spec := [c6MO] } "2 bogus" "2" "bogus" 2 c6MO
    "1.1" 0 rfl rfl (by decide) (by decide) (by decide) (by decide) (by decide)
    (by decide) (by decide) (by decide) (by decide)).1


/-- One `mo_eorb` token step never changes any occupation number. -/
theorem fchkMOEnergyTok_occ (s : FchkSt) (t : String) (s2 : FchkSt)
    (h : fchkMOEnergyTok s t = .ok s2) :
    s2.qc.mo_spec.map MO.occ_num = s.qc.mo_spec.map MO.occ_num := by
  unfold fchkMOEnergyTok at h
  cases hv : reqFloat t with
  | error e => rw [hv] at h; simp at h
  | ok v =>
    rw [hv] at h
    simp only [exbind_ok] at h
    cases hc : needName s.count with
    | error e => rw [hc] at h; simp at h
    | ok cnt =>
      rw [hc] at h
      simp only [exbind_ok] at h
      cases hm : pyGetI s.qc.mo_spec cnt with
      | error e => rw [hm] at h; simp at h
      | ok m =>
        rw [hm] at h
        simp only [exbind_ok] at h
        cases hset : pySetI s.qc.mo_spec cnt { m with energy := some v } with
        | error e => rw [hset] at h; simp at h
        | ok mos =>
          rw [hset] at h
          simp only [exbind_ok] at h
          have hpres : mos.map MO.occ_num = s.qc.mo_spec.map MO.occ_num :=
            pySetI_preserve MO.occ_num s.qc.mo_spec cnt m ({ m with energy := some v }) mos hm rfl hset
          split at h
          · cases h; exact hpres
          · split at h
            · simp at h
            · split at h
              · cases h; exact hpres
              · cases h; exact hpres

/-- One `mo_coeffs` token step never changes any occupation number. -/
theorem fchkMOCoeffTok_occ (s : FchkSt) (t : String) (s2 : FchkSt)
    (h : fchkMOCoeffTok s t = .ok s2) :
    s2.qc.mo_spec.map MO.occ_num = s.qc.mo_spec.map MO.occ_num := by
  unfold fchkMOCoeffTok at h
  cases hv : reqFloat t with
  | error e => rw [hv] at h; simp at h
  | ok v =>
    rw [hv] at h
    simp only [exbind_ok] at h
    rcases hidx2 : s.index with idx | _ | _ | _ <;> rw [hidx2] at h
    case stype => simp at h
    case spnum => simp at h
    case satom => simp at h
    case num =>
      simp only [exbind_ok] at h
      cases hm : pyGetI s.qc.mo_spec idx with
      | error e => rw [hm] at h; simp at h
      | ok m =>
        rw [hm] at h
        simp only [exbind_ok] at h
        cases hc : needName s.count with
        | error e => rw [hc] at h; simp at h
        | ok cnt =>
          rw [hc] at h
          simp only [exbind_ok] at h
          cases hcf : pySetI m.coeffs cnt v with
          | error e => rw [hcf] at h; simp at h
          | ok cf =>
            rw [hcf] at h
            simp only [exbind_ok] at h
            cases hset : pySetI s.qc.mo_spec idx { m with coeffs := cf } with
            | error e => rw [hset] at h; simp at h
            | ok mos =>
              rw [hset] at h
              simp only [exbind_ok] at h
              have hpres : mos.map MO.occ_num = s.qc.mo_spec.map MO.occ_num :=
                pySetI_preserve MO.occ_num s.qc.mo_spec idx m ({ m with coeffs := cf }) mos hm rfl hset
              repeat' split at h
              all_goals first
                | (cases h; exact hpres)
                | simp at h

/-- C10: the checkpoint parser fixes occupation numbers the moment an
`Orbital Energies` keyword is read, before any energies or coefficients:
with equal alpha/beta electron counts the first `el_num[0]` orbitals of the
created block get occupation 2.0 and all later ones 0.0; with differing
counts the first alpha count (for an `Alpha` line) or beta count
(otherwise) get 1.0 and the rest 0.0.  A concrete `Orbital Energies` line
indeed dispatches to that handler, and the subsequent orbital-energy and
MO-coefficient sections never change any occupation number. -/
theorem c10_fchk_occupations :
    (∀ (s : FchkSt) (line : String) (mo_num e0 e1 : Int) (s2 : FchkSt),
      s.el_num = [e0, e1] →
      fchkOrbEnergiesKw s line mo_num = .ok s2 →
      s2.qc.mo_spec.length = s.qc.mo_spec.length + mo_num.toNat ∧
      (∀ ii, ii < mo_num.toNat →
        (s2.qc.mo_spec.get? (s.qc.mo_spec.length + ii)).map MO.occ_num =
          some (some (if e0 = e1 then (if (ii : Int) < e0 then (2 : ℚ) else 0)
                      else if (ii : Int) < (if strIn "Alpha" line then e0 else e1)
                      then 1 else 0))) ∧
      (∀ k, k < s.qc.mo_spec.length → s2.qc.mo_spec.get? k = s.qc.mo_spec.get? k)) ∧
    (∀ s : FchkSt, fchkStep s c10line = fchkOrbEnergiesKw s c10line 4) ∧
    (∀ (s : FchkSt) (line : String) (s2 : FchkSt),
      s.sec_flag = FSec.moe ∨ s.sec_flag = FSec.moc →
      fchkKw line = false →
      fchkStep s line = .ok s2 →
      s2.qc.mo_spec.map MO.occ_num = s.qc.mo_spec.map MO.occ_num) := by
  refine ⟨?_, ?_, ?_⟩
  · intro s line mo_num e0 e1 s2 hel h
    unfold fchkOrbEnergiesKw at h
    rw [hel] at h
    simp only [pyGetN, List.get?, exbind_ok] at h
    cases h
    refine ⟨by simp only [List.length_append, List.length_map, List.length_range], ?_, ?_⟩
    · intro ii hii
      rw [List.get?_append_right (by omega)]
      have hsub : s.qc.mo_spec.length + ii - s.qc.mo_spec.length = ii := by omega
      rw [hsub, List.get?_map, List.get?_range hii]
      by_cases he : e0 = e1 <;> simp [he]
    · intro k hk
      exact List.get?_append hk
  · intro s
    rfl
  · intro s line s2 hsec hkw h
    simp only [fchkKw, Bool.or_eq_false_iff] at hkw
    obtain ⟨⟨⟨⟨⟨⟨⟨⟨⟨⟨⟨⟨q1, q2⟩, q3⟩, q4⟩, q5⟩, q6⟩, q7⟩, q8⟩, q9⟩, q10⟩, q11⟩, q12⟩, q13⟩ := hkw
    unfold fchkStep at h
    simp only [q1, q2, q3, q4, q5, q6, q7, q8, q9, q10, q11, q12, q13] at h
    rcases hsec with hsec | hsec <;> rw [hsec] at h <;> simp at h
    · exact foldlM_except_preserve _ (fun st => st.qc.mo_spec.map MO.occ_num)
        (fun a t b hb => fchkMOEnergyTok_occ a t b hb) _ s s2 h
    · exact foldlM_except_preserve _ (fun st => st.qc.mo_spec.map MO.occ_num)
        (fun a t b hb => fchkMOCoeffTok_occ a t b hb) _ s s2 h

/-- Witness for C10: a state with electron counts 1/1 and one already
present orbital; the four created orbitals get occupations 2, 0, 0, 0,
fixed at the keyword line. -/
theorem c10_fchk_occupations_witness :
    (fchkOrbEnergiesKw { el_num := [1, 1] : FchkSt } c10line 4).toOption.map
      (fun s2 => (s2.qc.mo_spec.get? 0).map MO.occ_num) = some (some (some 2)) := by
  cases hrun : fchkOrbEnergiesKw { el_num := [1, 1] : FchkSt } c10line 4 with
  | error e =>
    have hne : (fchkOrbEnergiesKw { el_num := [1, 1] : FchkSt } c10line 4).toOption.isSome
        = true := by decide
    rw [hrun] at hne
    simp [Except.toOption] at hne
  | ok s2 =>
    have h := (c10_fchk_occupations.1 { el_num := [1, 1] } c10line 4 1 1 s2 rfl hrun).2.1
      0 (by decide)
    simp only [Except.toOption, Option.map_some]
    simpa using h


/-- C7: `check_sel` resolves a requested index against the census count
through `range(count)[i]`, so any index in `[-count, count)` resolves, with
`-1` giving the last occurrence; a zero count for both orientations makes
the geometry selection fail with the no-geometry `IOError` after the
fallback retry; and on a concrete log with standard-orientation geometries
at x = 1, 2, 3 and an input-orientation one at x = 9, requesting index `-1`
with `standard` orientation returns the geometry at x = 3 — the last
standard-orientation one, not the input-orientation one; a log with no
geometry sections at all fails with that same `IOError`. -/
theorem c7_log_selection :
    (∀ (cnt : Nat) (i : Int) (stdin : List String),
      1 ≤ cnt → -(cnt : Int) ≤ i → i < cnt →
      check_sel cnt i false stdin = .ok (if 0 ≤ i then i else i + cnt, stdin)) ∧
    (∀ (i : Int) (interactive : Bool) (stdin : List String) (orientation : String),
      logResolveGeo 0 0 i interactive stdin orientation =
        .error (Err.ioError
          "Found no geometry section! Are you sure this is a GAUSSIAN .log file?")) ∧
    ((read_gaussian_log c7File false "standard" (-1) (-1) (-1) false []).toOption.map
      QCinfo.geo_spec = some [[3 * aaToAuConv, 0, 0]]) ∧
    (read_gaussian_log [" junk"] false "standard" (-1) (-1) (-1) false [] =
      .error (Err.ioError
        "Found no geometry section! Are you sure this is a GAUSSIAN .log file?")) := by
  refine ⟨?_, ?_, by decide, by decide⟩
  · intro cnt i stdin h1 h2 h3
    unfold check_sel
    rw [if_neg (by omega)]
    by_cases hc1 : cnt = 1
    · subst hc1
      rw [if_pos rfl]
      have hv : (if 0 ≤ i then i else i + ((1 : Nat) : Int)) = 0 := by
        split <;> omega
      rw [hv]
    · rw [if_neg hc1]
      simp only [Bool.false_eq_true, if_false]
      unfold pyIdx
      simp only [List.length_range]
      by_cases h0 : 0 ≤ i
      · rw [if_pos h0, List.get?_range (by omega), if_pos h0]
        simp [Int.toNat_of_nonneg h0]
      · rw [if_neg h0, if_pos (by omega), List.get?_range (by omega), if_neg h0]
        simp [Int.toNat_of_nonneg (show (0 : Int) ≤ i + cnt by omega)]
  · intro i interactive stdin orientation
    simp [logResolveGeo, check_sel]

/-- Witness for C7: resolving index `-1` against a census count of 3 gives
occurrence 2, the last one. -/
theorem c7_log_selection_witness :
    check_sel 3 (-1) false [] = .ok (2, []) := by
  have h := c7_log_selection.1 3 (-1) [] (by decide) (by decide) (by decide)
  simpa using h


/-- A token list whose `float` parses all succeed also maps successfully
through the raising variant. -/
theorem mapM_reqFloat_ok : ∀ (l : List String) (vs : List ℚ),
    l.mapM pyFloat? = some vs → l.mapM reqFloat = .ok vs := by
  intro l
  induction l with
  | nil =>
    intro vs h
    have h2 : (some [] : Option (List ℚ)) = some vs := h
    cases h2
    rfl
  | cons t ts ih =>
    intro vs h
    rw [List.mapM_cons] at h
    rw [List.mapM_cons]
    cases hf : pyFloat? t with
    | none => rw [hf] at h; simp at h
    | some v =>
      rw [hf] at h
      simp only [Option.bind_eq_bind, Option.some_bind] at h
      cases hts : ts.mapM pyFloat? with
      | none => rw [hts] at h; simp at h
      | some vs2 =>
        rw [hts] at h
        simp only [Option.bind_eq_bind, Option.some_bind] at h
        cases h
        have hr : reqFloat t = .ok v := by simp [reqFloat, hf]
        rw [hr]
        simp only [exbind_ok]
        rw [ih vs2 hts]
        rfl

/-- C4: both geometry readers store bohr.  Reading a molden `[Atoms]` header
with the `Angs` marker and then a geometry line with coordinate values `vs`
yields exactly the same stored record as reading a header without the
marker followed by the same line with pre-converted values
`vs / 0.52917720859`; the stored row is `vs · (1/0.52917720859)`.  The
gamess reader behaves the same with the marker logic inverted: conversion
happens exactly when the `(BOHR)` marker is absent from the geometry
header. -/
theorem c4_unit_conversion :
    (∀ (s : MoldenSt) (qc : QCinfo) (hdrA hdrU gA gU : String) (vs : List ℚ),
      s.qc = some qc →
      strIn "[Molden Format]" hdrA = false → strIn "_ENERGY=" hdrA = false →
      strIn "[Atoms]" hdrA = true → strIn "Angs" hdrA = true →
      strIn "[Molden Format]" hdrU = false → strIn "_ENERGY=" hdrU = false →
      strIn "[Atoms]" hdrU = true → strIn "Angs" hdrU = false →
      moldenKw gA = false → moldenKw gU = false →
      (pySplit gA).take 3 = (pySplit gU).take 3 →
      ((pySplit gA).drop 3).mapM pyFloat? = some vs →
      ((pySplit gU).drop 3).mapM pyFloat? =
        some (vs.map (fun v => v / (0.52917720859 : ℚ))) →
      ∃ tA tU, (moldenStep s hdrA >>= fun t => moldenStep t gA) = .ok tA ∧
        (moldenStep s hdrU >>= fun t => moldenStep t gU) = .ok tU ∧
        tA.qc = tU.qc ∧
        tA.qc = some { qc with
          geo_info := qc.geo_info ++ [((pySplit gA).take 3).map GVal.str],
          geo_spec := qc.geo_spec ++ [vs.map (fun v => v * aaToAuConv)] }) ∧
    (∀ (s : GamessSt) (hdrN hdrB sk gN gB : String) (t0 t1 : String) (vs : List ℚ),
      strIn " ATOM      ATOMIC                      COORDINATES" hdrN = true →
      strIn "(BOHR)" hdrN = false →
      strIn " ATOM      ATOMIC                      COORDINATES" hdrB = true →
      strIn "(BOHR)" hdrB = true →
      gamessKw sk = false →
      gamessKw gN = false → gamessKw gB = false → gN ≠ "" → gB ≠ "" →
      (pySplit gN).get? 0 = some t0 → (pySplit gN).get? 1 = some t1 →
      (pySplit gB).get? 0 = some t0 → (pySplit gB).get? 1 = some t1 →
      ((pySplit gN).drop 2).mapM pyFloat? = some vs →
      ((pySplit gB).drop 2).mapM pyFloat? =
        some (vs.map (fun v => v / (0.52917720859 : ℚ))) →
      ∃ tN tB,
        (gamessStep s hdrN >>= fun t => gamessStep t sk >>= fun t2 => gamessStep t2 gN) =
          .ok tN ∧
        (gamessStep s hdrB >>= fun t => gamessStep t sk >>= fun t2 => gamessStep t2 gB) =
          .ok tB ∧
        tN.qc = tB.qc ∧
        tN.qc = { s.qc with
          geo_info := s.qc.geo_info ++ [[GVal.str t0, GVal.int 1, GVal.str t1]],
          geo_spec := s.qc.geo_spec ++ [vs.map (fun v => v * aaToAuConv)] }) := by
  have hconv : ∀ vs : List ℚ,
      (vs.map (fun v => v / (0.52917720859 : ℚ))).map (fun v => v * 1) =
        vs.map (fun v => v * aaToAuConv) := by
    intro vs
    simp [List.map_map, Function.comp, aaToAuConv, div_eq_mul_inv, one_div]
  constructor
  · intro s qc hdrA hdrU gA gU vs hq a1 a2 a3 a4 u1 u2 u3 u4 kA kU htake hvA hvU
    simp only [moldenKw, Bool.or_eq_false_iff] at kA kU
    obtain ⟨⟨⟨⟨⟨kA1, kA2⟩, kA3⟩, kA4⟩, kA5⟩, kA6⟩ := kA
    obtain ⟨⟨⟨⟨⟨kU1, kU2⟩, kU3⟩, kU4⟩, kU5⟩, kU6⟩ := kU
    have hA1 : moldenStep s hdrA =
        .ok { s with sec_flag := some MSec.geo, aa_to_au := some aaToAuConv } := by
      simp [moldenStep, a1, a2, a3, a4]
    have hU1 : moldenStep s hdrU =
        .ok { s with sec_flag := some MSec.geo, aa_to_au := some (1 : ℚ) } := by
      simp [moldenStep, u1, u2, u3, u4]
    have hrA := mapM_reqFloat_ok _ _ hvA
    have hrU := mapM_reqFloat_ok _ _ hvU
    have hrA2 : List.mapM.loop reqFloat ((pySplit gA).drop 3) [] = .ok vs := hrA
    have hrU2 : List.mapM.loop reqFloat ((pySplit gU).drop 3) [] =
        .ok (vs.map (fun v => v / (0.52917720859 : ℚ))) := hrU
    refine ⟨{ s with
        sec_flag := some MSec.geo, aa_to_au := some aaToAuConv,
        qc := some { qc with
          geo_info := qc.geo_info ++ [((pySplit gA).map GVal.str).take 3],
          geo_spec := qc.geo_spec ++ [vs.map (fun v => v * aaToAuConv)] } }, { s with
        sec_flag := some MSec.geo, aa_to_au := some (1 : ℚ),
        qc := some { qc with
          geo_info := qc.geo_info ++ [((pySplit gU).map GVal.str).take 3],
          geo_spec := qc.geo_spec ++
            [vs.map (fun v => v / (0.52917720859 : ℚ))] } }, ?_, ?_, ?_, ?_⟩
    · rw [hA1]
      simp only [exbind_ok]
      simp [moldenStep, kA1, kA2, kA3, kA4, kA5, kA6, moldenGeoLine, needName, hq]
      rw [hrA2]
      simp only [exbind_ok]
    · rw [hU1]
      simp only [exbind_ok]
      simp [moldenStep, kU1, kU2, kU3, kU4, kU5, kU6, moldenGeoLine, needName, hq]
      rw [hrU2]
      simp only [exbind_ok]
    · have ht2 : ((pySplit gA).map GVal.str).take 3 = ((pySplit gU).map GVal.str).take 3 := by
        rw [← List.map_take, ← List.map_take, htake]
      have hc2 : vs.map (fun v => v * aaToAuConv) =
          vs.map (fun v => v / (0.52917720859 : ℚ)) := by
        rw [← hconv vs, List.map_map]
        simp [Function.comp]
      rw [ht2, hc2]
    · rw [List.map_take]
  · intro s hdrN hdrB sk gN gB t0 t1 vs n1 n2 b1 b2 ksk kN kB hne hbe g0 g1 h0 h1 hvN hvB
    simp only [gamessKw, Bool.or_eq_false_iff] at ksk kN kB
    obtain ⟨⟨⟨⟨⟨⟨⟨⟨⟨⟨⟨s1, s2⟩, s3⟩, s4⟩, s5⟩, s6⟩, s7⟩, s8⟩, s9⟩, s10⟩, s11⟩, s12⟩ := ksk
    obtain ⟨⟨⟨⟨⟨⟨⟨⟨⟨⟨⟨n01, n02⟩, n03⟩, n04⟩, n05⟩, n06⟩, n07⟩, n08⟩, n09⟩, n10⟩, n11⟩, n12⟩ := kN
    obtain ⟨⟨⟨⟨⟨⟨⟨⟨⟨⟨⟨b01, b02⟩, b03⟩, b04⟩, b05⟩, b06⟩, b07⟩, b08⟩, b09⟩, b10⟩, b11⟩, b12⟩ := kB
    rw [List.get?_eq_getElem?] at g0 g1 h0 h1
    have hrN := mapM_reqFloat_ok _ _ hvN
    have hrB := mapM_reqFloat_ok _ _ hvB
    have hN1 : gamessStep s hdrN =
        .ok { s with sec_flag := GSec.geo, geo_skip := 1, atom_count := some 1,
                     aa_to_au := some aaToAuConv } := by
      simp [gamessStep, n1, n2]
    have hB1 : gamessStep s hdrB =
        .ok { s with sec_flag := GSec.geo, geo_skip := 1, atom_count := some 1,
                     aa_to_au := some (1 : ℚ) } := by
      simp [gamessStep, b1, b2]
    have hrN2 : List.mapM.loop reqFloat ((pySplit gN).drop 2) [] = .ok vs := hrN
    have hrB2 : List.mapM.loop reqFloat ((pySplit gB).drop 2) [] =
        .ok (vs.map (fun v => v / (0.52917720859 : ℚ))) := hrB
    refine ⟨{ s with
        sec_flag := GSec.geo, geo_skip := 0, atom_count := some 2,
        aa_to_au := some aaToAuConv,
        qc := { s.qc with
          geo_info := s.qc.geo_info ++ [[GVal.str t0, GVal.int 1, GVal.str t1]],
          geo_spec := s.qc.geo_spec ++ [vs.map (fun v => v * aaToAuConv)] } }, { s with
        sec_flag := GSec.geo, geo_skip := 0, atom_count := some 2,
        aa_to_au := some (1 : ℚ),
        qc := { s.qc with
          geo_info := s.qc.geo_info ++ [[GVal.str t0, GVal.int 1, GVal.str t1]],
          geo_spec := s.qc.geo_spec ++
            [vs.map (fun v => v / (0.52917720859 : ℚ))] } }, ?_, ?_, ?_, ?_⟩
    · rw [hN1]
      simp only [exbind_ok]
      have hsk : gamessStep { s with
          sec_flag := GSec.geo, geo_skip := 1,
          atom_count := some 1, aa_to_au := some aaToAuConv } sk =
          .ok { s with
            sec_flag := GSec.geo, geo_skip := 0, atom_count := some 1,
            aa_to_au := some aaToAuConv } := by
        simp [gamessStep, s1, s2, s3, s4, s5, s6, s7, s8, s9, s10, s11, s12,
              gamessGeoLine]
      rw [hsk]
      simp only [exbind_ok]
      simp [gamessStep, n01, n02, n03, n04, n05, n06, n07, n08, n09, n10, n11, n12,
            gamessGeoLine, hne, pyGetN, g0, g1, needName]
      rw [hrN2]
      simp only [exbind_ok]
    · rw [hB1]
      simp only [exbind_ok]
      have hsk : gamessStep { s with
          sec_flag := GSec.geo, geo_skip := 1,
          atom_count := some 1, aa_to_au := some (1 : ℚ) } sk =
          .ok { s with
            sec_flag := GSec.geo, geo_skip := 0, atom_count := some 1,
            aa_to_au := some (1 : ℚ) } := by
        simp [gamessStep, s1, s2, s3, s4, s5, s6, s7, s8, s9, s10, s11, s12,
              gamessGeoLine]
      rw [hsk]
      simp only [exbind_ok]
      simp [gamessStep, b01, b02, b03, b04, b05, b06, b07, b08, b09, b10, b11, b12,
            gamessGeoLine, hbe, pyGetN, h0, h1, needName]
      rw [hrB2]
      simp only [exbind_ok]
    · have hc2 : vs.map (fun v => v * aaToAuConv) =
          vs.map (fun v => v / (0.52917720859 : ℚ)) := by
        rw [← hconv vs, List.map_map]
        simp [Function.comp]
      rw [hc2]
    · rfl

/-- Witness for C4: the same one-atom geometry once declared in Ångström
(value 0.52917720859) and once pre-converted to bohr (value 1.0), for both
parsers; the stored coordinate rows coincide. -/
theorem c4_unit_conversion_witness :
    (∃ tA tU, (moldenStep ({ qc := some {} } : MoldenSt) "[Atoms] Angs" >>= fun t =>
        moldenStep t "C 1 6 0.52917720859") = .ok tA ∧
      (moldenStep ({ qc := some {} } : MoldenSt) "[Atoms] AU" >>= fun t =>
        moldenStep t "C 1 6 1.0") = .ok tU ∧
      tA.qc = tU.qc ∧
      tA.qc = some { ({} : QCinfo) with
        geo_info := ({} : QCinfo).geo_info ++
          [((pySplit "C 1 6 0.52917720859").take 3).map GVal.str],
        geo_spec := ({} : QCinfo).geo_spec ++
          [[(0.52917720859 : ℚ)].map (fun v => v * aaToAuConv)] }) ∧
    (∃ tN tB,
      (gamessStep ({} : GamessSt) " ATOM      ATOMIC                      COORDINATES (ANGS)" >>=
        fun t => gamessStep t " CHARGE X Y Z" >>= fun t2 =>
          gamessStep t2 " C 6.0 0.52917720859") = .ok tN ∧
      (gamessStep ({} : GamessSt) " ATOM      ATOMIC                      COORDINATES (BOHR)" >>=
        fun t => gamessStep t " CHARGE X Y Z" >>= fun t2 =>
          gamessStep t2 " C 6.0 1.0") = .ok tB ∧
      tN.qc = tB.qc ∧
      tN.qc = { ({} : GamessSt).qc with
        geo_info := ({} : GamessSt).qc.geo_info ++
          [[GVal.str "C", GVal.int 1, GVal.str "6.0"]],
        geo_spec := ({} : GamessSt).qc.geo_spec ++
          [[(0.52917720859 : ℚ)].map (fun v => v * aaToAuConv)] }) :=
  ⟨c4_unit_conversion.1 ({ qc := some {} } : MoldenSt) {} "[Atoms] Angs" "[Atoms] AU"
      "C 1 6 0.52917720859" "C 1 6 1.0" [(0.52917720859 : ℚ)] rfl
      (by decide) (by decide) (by decide) (by decide)
      (by decide) (by decide) (by decide) (by decide)
      (by decide) (by decide) (by decide) (by decide) (by decide),
   c4_unit_conversion.2 ({} : GamessSt)
      " ATOM      ATOMIC                      COORDINATES (ANGS)"
      " ATOM      ATOMIC                      COORDINATES (BOHR)"
      " CHARGE X Y Z" " C 6.0 0.52917720859" " C 6.0 1.0" "C" "6.0"
      [(0.52917720859 : ℚ)]
      (by decide) (by decide) (by decide) (by decide) (by decide)
      (by decide) (by decide) (by decide) (by decide) (by decide)
      (by decide) (by decide) (by decide) (by decide) (by decide)⟩

/-- C8: in the transition-dipole section, the debye → atomic-units factor
0.393430307 is multiplied onto exactly the three components of the
ground-state dipole line; an excited-state dipole line (in the state
sub-mode) and a transition-dipole line (in the transition sub-mode) are
stored verbatim, with no conversion factor. -/
theorem c8_tdm_dipole_units :
    (∀ (s : GamessSt) (line : String) (dip : List (List ℚ)) (x y z : ℚ)
       (tx ty tz : String) (dip2 : List (List ℚ)),
      gamessKw line = false →
      s.sec_flag = GSec.tdm →
      s.tdm_state_dipole = PyVar.val dip →
      s.tdm_flag = some TFlag.noneF →
      strIn "GROUND STATE (SCF) DIPOLE=" line = true →
      strIn "EXPECTATION VALUE DIPOLE MOMENT FOR EXCITED STATE" line = false →
      strIn "TRANSITION FROM THE GROUND STATE TO EXCITED STATE" line = false →
      strIn "TRANSITION BETWEEN EXCITED STATES" line = false →
      strIn "CIS NATURAL ORBITAL OCCUPATION NUMBERS FOR EXCITED STATE" line = false →
      (pySplit line).get? 4 = some tx → pyFloat? tx = some x →
      (pySplit line).get? 5 = some ty → pyFloat? ty = some y →
      (pySplit line).get? 6 = some tz → pyFloat? tz = some z →
      pySetN dip 0 [x * (0.393430307 : ℚ), y * 0.393430307, z * 0.393430307] = .ok dip2 →
      gamessStep s line = .ok { s with tdm_state_dipole := PyVar.val dip2 }) ∧
    (∀ (s : GamessSt) (line : String) (dip : List (List ℚ)) (k : Int) (x y z : ℚ)
       (tx ty tz : String) (dip2 : List (List ℚ)),
      gamessKw line = false →
      s.sec_flag = GSec.tdm →
      s.tdm_state_dipole = PyVar.val dip →
      s.tdm_flag = some TFlag.state →
      s.tdm_state = some k →
      strIn "E*BOHR" line = true →
      strIn "GROUND STATE (SCF) DIPOLE=" line = false →
      strIn "EXPECTATION VALUE DIPOLE MOMENT FOR EXCITED STATE" line = false →
      strIn "TRANSITION FROM THE GROUND STATE TO EXCITED STATE" line = false →
      strIn "TRANSITION BETWEEN EXCITED STATES" line = false →
      strIn "CIS NATURAL ORBITAL OCCUPATION NUMBERS FOR EXCITED STATE" line = false →
      strIn "STATE MULTIPLICITY" line = false →
      strIn "STATE ENERGY" line = false →
      (pySplit line).get? 3 = some tx → pyFloat? tx = some x →
      (pySplit line).get? 4 = some ty → pyFloat? ty = some y →
      (pySplit line).get? 5 = some tz → pyFloat? tz = some z →
      pySetI dip k [x, y, z] = .ok dip2 →
      gamessStep s line = .ok { s with tdm_state_dipole := PyVar.val dip2 }) ∧
    (∀ (s : GamessSt) (line : String) (tt rowa : List (List ℚ)) (a b : Int)
       (x y z : ℚ) (tx ty tz : String) (rowa2 : List (List ℚ))
       (tt0 : List (List (List ℚ))) (tt2 : List (List (List ℚ))),
      gamessKw line = false →
      s.sec_flag = GSec.tdm →
      s.tdm_state_dipole = PyVar.val tt ∧ True →
      s.tdm_flag = some TFlag.trans →
      s.tdm_trans_states = some [a, b] →
      s.tdm_tdm = some tt0 →
      strIn "E*BOHR" line = true →
      strIn "GROUND STATE (SCF) DIPOLE=" line = false →
      strIn "EXPECTATION VALUE DIPOLE MOMENT FOR EXCITED STATE" line = false →
      strIn "TRANSITION FROM THE GROUND STATE TO EXCITED STATE" line = false →
      strIn "TRANSITION BETWEEN EXCITED STATES" line = false →
      strIn "CIS NATURAL ORBITAL OCCUPATION NUMBERS FOR EXCITED STATE" line = false →
      (pySplit line).get? 3 = some tx → pyFloat? tx = some x →
      (pySplit line).get? 4 = some ty → pyFloat? ty = some y →
      (pySplit line).get? 5 = some tz → pyFloat? tz = some z →
      pyGetI tt0 a = .ok rowa →
      pySetI rowa b [x, y, z] = .ok rowa2 →
      pySetI tt0 a rowa2 = .ok tt2 →
      gamessStep s line = .ok { s with tdm_tdm := some tt2 }) := by
  refine ⟨?_, ?_, ?_⟩
  · intro s line dip x y z tx ty tz dip2 hkw hsec harr hflag m1 m2 m3 m4 m5
      htx hx hty hy htz hz hset
    simp only [gamessKw, Bool.or_eq_false_iff] at hkw
    obtain ⟨⟨⟨⟨⟨⟨⟨⟨⟨⟨⟨q1, q2⟩, q3⟩, q4⟩, q5⟩, q6⟩, q7⟩, q8⟩, q9⟩, q10⟩, q11⟩, q12⟩ := hkw
    rw [List.get?_eq_getElem?] at htx hty htz
    simp only [gamessStep, q1, q2, q3, q4, q5, q6, q7, q8, q9, q10, q11, q12]
    simp [hsec, gamessTdmLine, harr, m1, m2, m3, m4, m5, hflag, dipoleRow, needName,
          pyGetN, htx, hty, htz, reqFloat, hx, hy, hz, hset]
  · intro s line dip k x y z tx ty tz dip2 hkw hsec harr hflag hk hE m1 m2 m3 m4 m5 m6 m7
      htx hx hty hy htz hz hset
    simp only [gamessKw, Bool.or_eq_false_iff] at hkw
    obtain ⟨⟨⟨⟨⟨⟨⟨⟨⟨⟨⟨q1, q2⟩, q3⟩, q4⟩, q5⟩, q6⟩, q7⟩, q8⟩, q9⟩, q10⟩, q11⟩, q12⟩ := hkw
    rw [List.get?_eq_getElem?] at htx hty htz
    simp only [gamessStep, q1, q2, q3, q4, q5, q6, q7, q8, q9, q10, q11, q12]
    simp [hsec, gamessTdmLine, harr, m1, m2, m3, m4, m5, m6, m7, hflag, hk, hE,
          dipoleRow, needName, pyGetN, htx, hty, htz, reqFloat, hx, hy, hz, hset]
  · intro s line tt rowa a b x y z tx ty tz rowa2 tt0 tt2 hkw hsec harr hflag hab htt hE
      m1 m2 m3 m4 m5 htx hx hty hy htz hz hget hsetrow hsettt
    simp only [gamessKw, Bool.or_eq_false_iff] at hkw
    obtain ⟨⟨⟨⟨⟨⟨⟨⟨⟨⟨⟨q1, q2⟩, q3⟩, q4⟩, q5⟩, q6⟩, q7⟩, q8⟩, q9⟩, q10⟩, q11⟩, q12⟩ := hkw
    rw [List.get?_eq_getElem?] at htx hty htz
    simp only [gamessStep, q1, q2, q3, q4, q5, q6, q7, q8, q9, q10, q11, q12]
    simp [hsec, gamessTdmLine, harr.1, m1, m2, m3, m4, m5, hflag, hab, htt, hE,
          dipoleRow, needName, pyGetN, htx, hty, htz, reqFloat, hx, hy, hz,
          hget, hsetrow, hsettt]

/-- C5: the dedup loop compares only the shells the later atom has, indexing
the canonical list up to the later atom's shell count.  An equal-length
coefficient mismatch is caught (`c5FileB` raises the inconsistent-basis
`IOError`), but a later same-element atom whose shell list is a
coefficient-wise proper prefix of the first atom's passes silently: in
`c5File` the two carbon atoms carry differing coefficient lists (the first
has an S and a P shell, the second only the S shell), yet the parse
succeeds and both atoms are given the first atom's full basis in the
returned record, contradicting the claimed universal failure. -/
theorem c5_inconsistent_basis :
    read_gamess c5FileB false =
      .error (Err.ioError "Different basis sets for the same atom.") ∧
    (gamessScan c5File).toOption.map (fun s =>
      s.AO.map (fun atom => (atom.head?.bind GShell.atom_type, atom.map GShell.coeffs))) =
      some [(some "C", [[[(0.5 : ℚ), 1]], [[0.3, 1]]]), (some "C", [[[0.5, 1]]])] ∧
    (read_gamess c5File false).toOption.map (fun qc =>
      qc.ao_spec.map (fun a => (a.atom, a.type, a.coeffs))) =
      some [(some 0, some "s", some [[(0.5 : ℚ), 1]]),
            (some 0, some "p", some [[0.3, 1]]),
            (some 1, some "s", some [[0.5, 1]]),
            (some 1, some "p", some [[0.3, 1]])] := by
  refine ⟨by decide, by decide, by rfl⟩

/-- Witness for C8: on concrete ground-state, excited-state and transition
dipole lines with components 1.0, 2.0, 3.0, only the ground-state line is
scaled by 0.393430307. -/
theorem c8_tdm_dipole_units_witness :
    gamessStep c8st1 " GROUND STATE (SCF) DIPOLE=    1.0   2.0   3.0" =
      .ok { c8st1 with tdm_state_dipole :=
              PyVar.val [[(0.393430307 : ℚ), 0.786860614, 1.180290921], [0, 0, 0]] } ∧
    gamessStep c8st2 " STATE DIPOLE =  1.0  2.0  3.0 E*BOHR" =
      .ok { c8st2 with tdm_state_dipole := PyVar.val [[0, 0, 0], [1, 2, 3]] } ∧
    gamessStep c8st3 " TRANSITION DIPOLE =  1.0  2.0  3.0 E*BOHR" =
      .ok { c8st3 with tdm_tdm := some [[[0, 0, 0], [1, 2, 3]]] } :=
  ⟨c8_tdm_dipole_units.1 c8st1 " GROUND STATE (SCF) DIPOLE=    1.0   2.0   3.0"
      [[0, 0, 0], [0, 0, 0]] 1 2 3 "1.0" "2.0" "3.0"
      [[(0.393430307 : ℚ), 0.786860614, 1.180290921], [0, 0, 0]]
      (by decide) rfl rfl rfl (by decide) (by decide) (by decide) (by decide)
      (by decide) (by decide) (by decide) (by decide) (by decide) (by decide)
      (by decide) (by decide),
   c8_tdm_dipole_units.2.1 c8st2 " STATE DIPOLE =  1.0  2.0  3.0 E*BOHR"
      [[0, 0, 0], [0, 0, 0]] 1 1 2 3 "1.0" "2.0" "3.0" [[0, 0, 0], [1, 2, 3]]
      (by decide) rfl rfl rfl rfl (by decide) (by decide) (by decide) (by decide)
      (by decide) (by decide) (by decide) (by decide) (by decide) (by decide)
      (by decide) (by decide) (by decide) (by decide) (by decide),
   c8_tdm_dipole_units.2.2 c8st3 " TRANSITION DIPOLE =  1.0  2.0  3.0 E*BOHR"
      [[0, 0, 0], [0, 0, 0]] [[0, 0, 0], [0, 0, 0]] 0 1 1 2 3 "1.0" "2.0" "3.0"
      [[0, 0, 0], [1, 2, 3]] [[[0, 0, 0], [0, 0, 0]]] [[[0, 0, 0], [1, 2, 3]]]
      (by decide) rfl ⟨rfl, trivial⟩ rfl rfl rfl (by decide) (by decide) (by decide)
      (by decide) (by decide) (by decide) (by decide) (by decide) (by decide)
      (by decide) (by decide) (by decide) (by decide) (by decide) (by decide)⟩

end Orbkit
